import Mathlib

/-!
Shallow embedding of the nom-mpq MPQ archive reader (src/src/lib.rs and the
struct definitions under src/src/parser/), together with theorems checking the
natural-language specification against it.

Modelling conventions:
* Rust `u32`/`u16`/`usize` values are `Nat`; wrap-around is written with an
  explicit mask (`&&& 0xFFFFFFFF` or `% 2 ^ 64`) exactly where the source
  masks or where the source relies on machine wrap-around.
* The Rust `HashMap<u32, u32>` of the encryption table is modelled as an
  association list with most-recent-insert-first lookup (`hmGet`), which has
  the same insert/get semantics.
* Rust strings are modelled as lists of Unicode codepoints (`List Nat`);
  `str::to_uppercase` and `str::to_lowercase` are modelled per codepoint
  with expansion (`rustUpperChar`, `rustLowerChar`), exact on ASCII and on
  the non-ASCII codepoints the theorems quantify over.  The cast
  `len as f32` in the decryptor loop bound is modelled exactly by
  `f32RoundNat` (round to nearest, ties to even).
* Fallible/diverging behaviour: `RRes` distinguishes a successful return
  (`ok`), a recoverable nom parse error (`nomErr`), and a Rust panic
  (`panicked`).  Out-of-bounds slice indexing and explicit panic macros map
  to `panicked`; nom `take`-style errors map to `nomErr`.
* The two external decompression codecs (zlib, bzip2) are out of scope for
  the reader per the spec; they are passed in as oracle functions
  `List Nat → Option (List Nat)` where `none` models a codec failure (whose
  `unwrap` in the source panics).
-/

namespace NomMpq

set_option maxRecDepth 40000
set_option maxHeartbeats 4000000

/-- Association-list model of the Rust `HashMap<u32, u32>`: insertion conses,
lookup finds the most recently inserted binding. -/
def hmInsert (m : List (Nat × Nat)) (k v : Nat) : List (Nat × Nat) :=
  (k, v) :: m

/-- Lookup in the association-list hash-map model. -/
def hmGet (m : List (Nat × Nat)) (k : Nat) : Option Nat :=
  (m.find? (fun p => p.1 == k)).map (fun p => p.2)

/-- Flag bit: the sector is compressed (`MPQ_FILE_COMPRESS`). -/
def MPQ_FILE_COMPRESS : Nat := 0x00000200

/-- Flag bit: the sector is encrypted (`MPQ_FILE_ENCRYPTED`). -/
def MPQ_FILE_ENCRYPTED : Nat := 0x00010000

/-- Flag bit: the sector contains a single file/unit (`MPQ_FILE_SINGLE_UNIT`). -/
def MPQ_FILE_SINGLE_UNIT : Nat := 0x01000000

/-- Flag bit: the sector has a cyclic redundancy check (`MPQ_FILE_SECTOR_CRC`). -/
def MPQ_FILE_SECTOR_CRC : Nat := 0x04000000

/-- Flag bit: the sector exists, as opposed to marked as deleted (`MPQ_FILE_EXISTS`). -/
def MPQ_FILE_EXISTS : Nat := 0x80000000

/-- Compression tag byte: no compression. -/
def COMPRESSION_PLAINTEXT : Nat := 0

/-- Compression tag byte: zlib. -/
def COMPRESSION_ZLIB : Nat := 2

/-- Compression tag byte: bzip2. -/
def COMPRESSION_BZ2 : Nat := 16

/-- One step of the inner loop body of `MPQ::prepare_encryption_table`:
state is (seed, idx, accumulated table); each step performs the two LCG
advances, inserts `temp1 | temp2` at `idx` and bumps `idx` by 0x100.
All intermediate values stay below 2^32 (`seed` stays below 0x2AAAAB and
`temp1 | temp2` below 2^32), so the u32 arithmetic never wraps. -/
def cryptTableStep (st : Nat × Nat × List (Nat × Nat)) : Nat × Nat × List (Nat × Nat) :=
  let seed := (st.1 * 125 + 3) % 0x2AAAAB
  let temp1 := (seed &&& 0xFFFF) <<< 0x10
  let seed2 := (seed * 125 + 3) % 0x2AAAAB
  let temp2 := seed2 &&& 0xFFFF
  (seed2, st.2.1 + 0x100, hmInsert st.2.2 st.2.1 (temp1 ||| temp2))

/-- The inner `repeat 5` loop of `MPQ::prepare_encryption_table` for outer
index `i`, starting from seed `st.1` and accumulated table `st.2`. -/
def cryptInner (st : Nat × List (Nat × Nat)) (i : Nat) : Nat × Nat × List (Nat × Nat) :=
  (List.range 5).foldl (fun st2 _ => cryptTableStep st2) (st.1, i, st.2)

/-- One outer-loop iteration of `MPQ::prepare_encryption_table`: run the
inner loop and keep the threaded seed and the table. -/
def cryptOuter (st : Nat × List (Nat × Nat)) (i : Nat) : Nat × List (Nat × Nat) :=
  let r := cryptInner st i
  (r.1, r.2.2)

/-- Embedding of `MPQ::prepare_encryption_table`: for `i` in `0..256`, with `idx` starting
at `i`, repeat the LCG insertion five times.  The seed starts at 0x00100001
and is threaded through the whole double loop. -/
def prepare_encryption_table : List (Nat × Nat) :=
  ((List.range 256).foldl cryptOuter (0x00100001, [])).2

/-- The four MPQ hash domains (`MPQHashType` in src/src/parser/mod.rs). -/
inductive MPQHashType where
  | TableOffset : MPQHashType
  | HashA : MPQHashType
  | HashB : MPQHashType
  | Table : MPQHashType
deriving DecidableEq

/-- Numeric value of a hash domain (`TryFrom<MPQHashType> for u32`); total
because all four variants convert. -/
def hashTypeIdx : MPQHashType → Nat
  | .TableOffset => 0
  | .HashA => 1
  | .HashB => 2
  | .Table => 3

/-- Modelled from the Unicode case mappings used by Rust
`str::to_lowercase`, written out on the codepoints the theorems below
quantify over: ASCII uppercase letters map down by 32, and U+0130 LATIN
CAPITAL LETTER I WITH DOT ABOVE expands to the two codepoints `i` followed
by U+0307 COMBINING DOT ABOVE (Unicode SpecialCasing.txt, the mapping Rust
applies).  Other codepoints are left unchanged; every theorem below
quantifies only over codepoints on which this table agrees with Rust
(ASCII, U+0130 and U+0307). -/
def rustLowerChar (c : Nat) : List Nat :=
  if 65 ≤ c ∧ c ≤ 90 then [c + 32]
  else if c = 0x130 then [105, 0x307]
  else [c]

/-- Modelled from the Unicode case mapping used by Rust
`str::to_uppercase`, on the same codepoint domain: ASCII lowercase letters
map up by 32; U+0130 and U+0307 uppercase to themselves; other codepoints
are left unchanged. -/
def rustUpperChar (c : Nat) : List Nat :=
  if 97 ≤ c ∧ c ≤ 122 then [c - 32] else [c]

/-- Rust `str::to_lowercase` over codepoint lists; a codepoint may expand
to several. -/
def toLowercaseCp (s : List Nat) : List Nat :=
  (s.map rustLowerChar).flatten

/-- Rust `str::to_uppercase` over codepoint lists. -/
def toUppercaseCp (s : List Nat) : List Nat :=
  (s.map rustUpperChar).flatten

/-- One character step of `MPQ::mpq_string_hash`.  The state is
`some (seed1, seed2)` (both already masked to 32 bits); a missing
encryption-table index is the panic branch of the source, modelled as `none`.
The u64 additions never overflow 64 bits, so plain `Nat` arithmetic with the
explicit `&&& 0xFFFFFFFF` masks of the source is exact. -/
def hashStep (table : List (Nat × Nat)) (d : Nat) (acc : Option (Nat × Nat))
    (chOrd : Nat) : Option (Nat × Nat) :=
  match acc with
  | none => none
  | some (seed1, seed2) =>
    match hmGet table ((d <<< 8) + chOrd) with
    | none => none
    | some v =>
      let s1 := (v ^^^ (seed1 + seed2)) &&& 0xFFFFFFFF
      let s2 := (chOrd + s1 + seed2 + (seed2 <<< 5) + 3) &&& 0xFFFFFFFF
      some (s1, s2)

/-- Embedding of `MPQ::mpq_string_hash`: uppercase the location with the
modelled `str::to_uppercase`, then fold the keyed mixing step over the
resulting characters, starting from `(0x7FED7FED, 0xEEEEEEEE)`; the result
is the low 32 bits of `seed1`.  `none` models the panic of the source on an
encryption-table index miss, which uppercasing can reach for codepoints
whose table index exceeds 1279. -/
def mpq_string_hash (table : List (Nat × Nat)) (location : List Nat)
    (hashType : MPQHashType) : Option Nat :=
  ((toUppercaseCp location).foldl (hashStep table (hashTypeIdx hashType))
    (some (0x7FED7FED, 0xEEEEEEEE))).map (fun p => p.1)

/-- Extended archive header fields (`MPQFileHeaderExt`), recorded but unused
by the reader paths under verification. -/
structure MPQFileHeaderExt where
  extended_block_table_offset : Int
  hash_table_offset_high : Int
  block_table_offset_high : Int
deriving DecidableEq

/-- The MPQ archive header (`MPQFileHeader`); `offset` is the absolute
position of the header within the input buffer. -/
structure MPQFileHeader where
  header_size : Nat
  archive_size : Nat
  format_version : Nat
  sector_size_shift : Nat
  hash_table_offset : Nat
  block_table_offset : Nat
  hash_table_entries : Nat
  block_table_entries : Nat
  extended_file_header : Option MPQFileHeaderExt
  offset : Nat
deriving DecidableEq

/-- The optional user-data section (`MPQUserData`). -/
structure MPQUserData where
  user_data_size : Nat
  archive_header_offset : Nat
  user_data_header_size : Nat
  content : List Nat
deriving DecidableEq

/-- A hash table entry (`MPQHashTableEntry`). -/
structure MPQHashTableEntry where
  hash_a : Nat
  hash_b : Nat
  locale : Nat
  platform : Nat
  block_table_index : Nat
deriving DecidableEq

/-- A block table entry (`MPQBlockTableEntry`). -/
structure MPQBlockTableEntry where
  offset : Nat
  archived_size : Nat
  size : Nat
  flags : Nat
deriving DecidableEq

/-- The parsed archive (`MPQ`). -/
structure MPQ where
  archive_header : MPQFileHeader
  user_data : Option MPQUserData
  hash_table_entries : List MPQHashTableEntry
  block_table_entries : List MPQBlockTableEntry
  encryption_table : List (Nat × Nat)
deriving DecidableEq

/-- Embedding of `MPQ::get_hash_table_entry`: hash the filename under `HashA` and `HashB`
and linearly scan `hash_table_entries` for the first entry matching both.
The outer `Option` is the panic possibility inherited from
`mpq_string_hash`; the inner `Option` is found / not found. -/
def get_hash_table_entry (m : MPQ) (filename : List Nat) :
    Option (Option MPQHashTableEntry) :=
  match mpq_string_hash m.encryption_table filename .HashA,
      mpq_string_hash m.encryption_table filename .HashB with
  | some hashA, some hashB =>
    some (m.hash_table_entries.find? (fun e => e.hash_a == hashA && e.hash_b == hashB))
  | _, _ => none

/-- Result of a Rust call that can return a value, fail with a recoverable
nom parse error, or panic. -/
inductive RRes (α : Type) where
  | ok : α → RRes α
  | nomErr : RRes α
  | panicked : RRes α
deriving DecidableEq

/-- Embedding of `MPQ::decompress`: read the one-byte compression tag and dispatch.
`zlibD` and `bzipD` are the external codec oracles; `none` from a codec is
an `unwrap` panic in the source.  An unknown tag is the explicit panic
branch.  On success the source returns the pair `(tail, data)`. -/
def decompress (zlibD bzipD : List Nat → Option (List Nat)) (input : List Nat) :
    RRes (List Nat × List Nat) :=
  match input with
  | [] => .nomErr
  | b :: tail =>
    if b = COMPRESSION_PLAINTEXT then .ok (tail, tail)
    else if b = COMPRESSION_ZLIB then
      match zlibD tail with
      | some d => .ok (tail, d)
      | none => .panicked
    else if b = COMPRESSION_BZ2 then
      match bzipD tail with
      | some d => .ok (tail, d)
      | none => .panicked
    else .panicked

/-- Little-endian 32-bit read at byte offset `off` (always in bounds at the
call sites that model in-bounds Rust slices). -/
def readLE32 (data : List Nat) (off : Nat) : Nat :=
  data.getD off 0 ||| (data.getD (off + 1) 0 <<< 8) |||
    (data.getD (off + 2) 0 <<< 16) ||| (data.getD (off + 3) 0 <<< 24)

/-- Little-endian byte encoding of the low 32 bits of `v`
(`i32::to_le_bytes` on the same bit pattern). -/
def toLE32 (v : Nat) : List Nat :=
  [v &&& 0xFF, (v >>> 8) &&& 0xFF, (v >>> 16) &&& 0xFF, (v >>> 24) &&& 0xFF]

/-- Bit length of a natural number, by fuel over the 64 bits a `usize` can
have (structural, so it reduces in the kernel). -/
def natBitsAux : Nat → Nat → Nat
  | 0, _ => 0
  | fuel + 1, n => if n = 0 then 0 else natBitsAux fuel (n / 2) + 1

/-- Bit length of a `usize`-sized natural number. -/
def natBits (n : Nat) : Nat := natBitsAux 64 n

/-- Round a natural number to the nearest `f32` value (24-bit significand,
round half to even), returned as a natural number.  This models the Rust
cast `n as f32`, which is exact below `2 ^ 24` and rounds above it;
validated against IEEE-754 binary32 on the boundary cases and a large
random sample. -/
def f32RoundNat (n : Nat) : Nat :=
  if n < 2 ^ 24 then n
  else
    let shift := natBits n - 24
    let q := n >>> shift
    let r := n % 2 ^ shift
    let half := 2 ^ (shift - 1)
    if half < r ∨ (r = half ∧ q % 2 = 1) then (q + 1) <<< shift else q <<< shift

/-- The loop bound of `MPQ::mpq_data_decrypt`, which the source computes as
`(data.len() as f32 / 4f32).floor() as usize`: the `f32` division by 4 and
the floor are exact on the rounded length, so the bound equals
`f32RoundNat len / 4`.  It differs from `len / 4` once `len` exceeds
`2 ^ 24`: it can be one more (the loop then slices out of range and
panics) or one less (the final complete word is silently dropped). -/
def decryptWords (n : Nat) : Nat := f32RoundNat n / 4

/-- One iteration of the loop of `MPQ::mpq_data_decrypt` at word index `i`.
The source uses `i64` state; every value is represented by its 64-bit
twos-complement bit pattern as a `Nat` below `2 ^ 64`, so `!`, `<<`, `|`,
`&` and wrap-around agree with the source bit for bit.  A missing
encryption-table key is the `continue` branch of the source: state
unchanged, nothing emitted.  `none` is the Rust panic when the word slice
`&data[4*i..4*i+4]` is out of range, which the `f32` loop bound makes
reachable; the slice is taken only after the key lookup succeeds, as in
the source. -/
def decryptStep (table : List (Nat × Nat)) (data : List Nat)
    (st : Nat × Nat × List Nat) (i : Nat) : Option (Nat × Nat × List Nat) :=
  match hmGet table (0x400 + (st.1 &&& 0xFF)) with
  | none => some st
  | some etv =>
    if data.length < 4 * i + 4 then none
    else
      let seed1 := st.1
      let seed2 := (st.2.1 + etv) &&& 0xFFFFFFFF
      let v32 := readLE32 data (4 * i)
      let v64 := if v32 < 0x80000000 then v32 else v32 + 0xFFFFFFFF00000000
      let value := (v64 ^^^ (seed1 + seed2)) &&& 0xFFFFFFFF
      let seed1n := ((((seed1 ^^^ 0xFFFFFFFFFFFFFFFF) <<< 0x15) + 0x11111111) % 2 ^ 64 |||
        (seed1 >>> 0x0B)) &&& 0xFFFFFFFF
      let seed2n := (value + seed2 + (seed2 <<< 5) + 3) &&& 0xFFFFFFFF
      some (seed1n, seed2n, st.2.2 ++ toLE32 value)

/-- The decryption loop over the word indices `l`, threading the optional
state (`none` once the slice panic occurred). -/
def decryptLoop (table : List (Nat × Nat)) (data : List Nat) (l : List Nat)
    (st : Option (Nat × Nat × List Nat)) : Option (Nat × Nat × List Nat) :=
  l.foldl (fun acc i => acc.bind (fun s => decryptStep table data s i)) st

/-- Embedding of `MPQ::mpq_data_decrypt`: fold the per-word step over the
first `decryptWords len` little-endian words of `data` (the `f32`-computed
loop bound of the source), starting from `(key, 0xEEEEEEEE, [])`, and
return the emitted plaintext bytes; `none` is the panic on an out-of-range
word slice. -/
def mpq_data_decrypt (table : List (Nat × Nat)) (data : List Nat) (key : Nat) :
    Option (List Nat) :=
  (decryptLoop table data (List.range (decryptWords data.length))
    (some (key, 0xEEEEEEEE, []))).map (fun s => s.2.2)

/-- Rust slice `&l[a..b]`: defined when `a ≤ b ≤ l.length`, otherwise the
indexing panics (`none`). -/
def sliceOf (l : List Nat) (a b : Nat) : Option (List Nat) :=
  if a ≤ b ∧ b ≤ l.length then some ((l.drop a).take (b - a)) else none

/-- Wrapping `usize` subtraction (release-mode semantics of
`sector_bytes_left -= sector.len()`, which may underflow). -/
def wrapSub (a b : Nat) : Nat :=
  (a + 2 ^ 64 - b % 2 ^ 64) % 2 ^ 64

/-- The sector concatenation loop of `MPQ::read_mpq_file_sector`: `n` sectors
remain, `i` is the current sector index, `left` is `sector_bytes_left`,
`res` the accumulator.  `cf` is the loop-invariant Bool
`flags & COMPRESS != 0 && force_decompress`.  A malformed position pair
makes the Rust slice panic. -/
def sectorLoop (zlibD bzipD : List Nat → Option (List Nat))
    (fileData positions : List Nat) (cf : Bool) :
    Nat → Nat → Nat → List Nat → RRes (List Nat)
  | 0, _, _, res => .ok res
  | n + 1, i, left, res =>
    match sliceOf fileData (positions.getD i 0) (positions.getD (i + 1) 0) with
    | none => .panicked
    | some sector =>
      if cf = true ∨ sector.length < left then
        match decompress zlibD bzipD sector with
        | .ok (_, d) =>
          sectorLoop zlibD bzipD fileData positions cf n (i + 1)
            (wrapSub left sector.length) (res ++ d)
        | .nomErr => .nomErr
        | .panicked => .panicked
      else
        sectorLoop zlibD bzipD fileData positions cf n (i + 1)
          (wrapSub left sector.length) (res ++ sector)

/-- The multi-sector block of `MPQ::read_mpq_file_sector` (source lines
210-253): compute the sector count from the plaintext size and the logical
sector size, read the little-endian position table from the head of the
block, then concatenate the (possibly decompressed) sector slices.
The source computes the sector count as
`(size as f32 / sector_size as f32).floor() as usize + 1`; the sector size
is a power of two (exactly representable), so the division and floor are
exact on the rounded size and the count equals
`f32RoundNat size / sector_size + 1`. -/
def multiSectorRead (zlibD bzipD : List Nat → Option (List Nat))
    (sectorSizeShift : Nat) (blockEntry : MPQBlockTableEntry)
    (fileData : List Nat) (forceDecompress : Bool) : RRes (List Nat) :=
  let sectorSize := 512 <<< sectorSizeShift
  let sectors0 := f32RoundNat blockEntry.size / sectorSize + 1
  let crc := blockEntry.flags &&& MPQ_FILE_SECTOR_CRC ≠ 0
  let sectors := if crc then sectors0 + 1 else sectors0
  if fileData.length < 4 * (sectors + 1) then .panicked
  else
    let positions := (List.range (sectors + 1)).map (fun i => readLE32 fileData (4 * i))
    let totalSectors := if crc then positions.length - 1 - 1 else positions.length - 1
    sectorLoop zlibD bzipD fileData positions
      ((blockEntry.flags &&& MPQ_FILE_COMPRESS != 0) && forceDecompress)
      totalSectors 0 blockEntry.size []

/-- Embedding of `MPQ::read_mpq_file_sector` as written in the source: resolve the
filename, index the block table (unchecked), early-return empty content for
deleted or zero-size blocks, slice out `archived_size` bytes at
`offset + header.offset`, reject encrypted blocks by panicking, and then —
only inside the `SINGLE_UNIT != 0` branch — either decompress the whole
blob or run the multi-sector loop.  A block without `SINGLE_UNIT` falls
through to the final `Ok((tail, res))` with `res` still empty.
The returned `tail` is dropped; only the extracted bytes are modelled. -/
def read_mpq_file_sector (zlibD bzipD : List Nat → Option (List Nat))
    (m : MPQ) (filename : List Nat) (forceDecompress : Bool)
    (origInput : List Nat) : RRes (List Nat) :=
  match get_hash_table_entry m filename with
  | none => .panicked
  | some none => .ok []
  | some (some hashEntry) =>
    match m.block_table_entries.get? hashEntry.block_table_index with
    | none => .panicked
    | some blockEntry =>
      if blockEntry.flags &&& MPQ_FILE_EXISTS = 0 then .ok []
      else if blockEntry.archived_size = 0 then .ok []
      else
        let offset := blockEntry.offset + m.archive_header.offset
        if origInput.length < offset then .panicked
        else if (origInput.drop offset).length < blockEntry.archived_size then .nomErr
        else
          let fileData := (origInput.drop offset).take blockEntry.archived_size
          if blockEntry.flags &&& MPQ_FILE_ENCRYPTED ≠ 0 then .panicked
          else if blockEntry.flags &&& MPQ_FILE_SINGLE_UNIT ≠ 0 then
            if (blockEntry.flags &&& MPQ_FILE_COMPRESS ≠ 0 ∧ forceDecompress = true) ∨
                blockEntry.size > blockEntry.archived_size then
              match decompress zlibD bzipD fileData with
              | .ok (_, d) => .ok d
              | .nomErr => .nomErr
              | .panicked => .panicked
            else
              multiSectorRead zlibD bzipD m.archive_header.sector_size_shift
                blockEntry fileData forceDecompress
          else .ok []

/-- Specification-side reader, stated from the words of spec §4.6 for
comparison with `read_mpq_file_sector`: identical resolution, early
returns and single-unit path, but the two storage paths branch on
`flags & SINGLE_UNIT` — a block with `SINGLE_UNIT` clear takes the
multi-sector path instead of returning empty content. -/
def read_mpq_file_sector_spec (zlibD bzipD : List Nat → Option (List Nat))
    (m : MPQ) (filename : List Nat) (forceDecompress : Bool)
    (origInput : List Nat) : RRes (List Nat) :=
  match get_hash_table_entry m filename with
  | none => .panicked
  | some none => .ok []
  | some (some hashEntry) =>
    match m.block_table_entries.get? hashEntry.block_table_index with
    | none => .panicked
    | some blockEntry =>
      if blockEntry.flags &&& MPQ_FILE_EXISTS = 0 then .ok []
      else if blockEntry.archived_size = 0 then .ok []
      else
        let offset := blockEntry.offset + m.archive_header.offset
        if origInput.length < offset then .panicked
        else if (origInput.drop offset).length < blockEntry.archived_size then .nomErr
        else
          let fileData := (origInput.drop offset).take blockEntry.archived_size
          if blockEntry.flags &&& MPQ_FILE_ENCRYPTED ≠ 0 then .panicked
          else if blockEntry.flags &&& MPQ_FILE_SINGLE_UNIT ≠ 0 then
            if (blockEntry.flags &&& MPQ_FILE_COMPRESS ≠ 0 ∧ forceDecompress = true) ∨
                blockEntry.size > blockEntry.archived_size then
              match decompress zlibD bzipD fileData with
              | .ok (_, d) => .ok d
              | .nomErr => .nomErr
              | .panicked => .panicked
            else .ok fileData
          else
            multiSectorRead zlibD bzipD m.archive_header.sector_size_shift
              blockEntry fileData forceDecompress

/-- Decoder for `std::str::from_utf8` followed by `chars()`: validates the
byte list as UTF-8 (rejecting overlong forms, surrogates and codepoints
above 0x10FFFF, as Rust does) and returns the codepoint list; `none` is the
panic of the source on invalid UTF-8. -/
def utf8Chars : List Nat → Option (List Nat)
  | [] => some []
  | b :: rest =>
    if b ≤ 0x7F then
      (utf8Chars rest).map (fun cs => b :: cs)
    else if 0xC2 ≤ b ∧ b ≤ 0xDF then
      match rest with
      | c1 :: rest2 =>
        if 0x80 ≤ c1 ∧ c1 ≤ 0xBF then
          (utf8Chars rest2).map (fun cs => (((b - 0xC0) <<< 6) ||| (c1 - 0x80)) :: cs)
        else none
      | [] => none
    else if 0xE0 ≤ b ∧ b ≤ 0xEF then
      match rest with
      | c1 :: c2 :: rest2 =>
        if (0x80 ≤ c1 ∧ c1 ≤ 0xBF) ∧ (0x80 ≤ c2 ∧ c2 ≤ 0xBF) ∧
            (b ≠ 0xE0 ∨ 0xA0 ≤ c1) ∧ (b ≠ 0xED ∨ c1 ≤ 0x9F) then
          (utf8Chars rest2).map
            (fun cs => (((b - 0xE0) <<< 12) ||| ((c1 - 0x80) <<< 6) ||| (c2 - 0x80)) :: cs)
        else none
      | _ => none
    else if 0xF0 ≤ b ∧ b ≤ 0xF4 then
      match rest with
      | c1 :: c2 :: c3 :: rest2 =>
        if (0x80 ≤ c1 ∧ c1 ≤ 0xBF) ∧ (0x80 ≤ c2 ∧ c2 ≤ 0xBF) ∧ (0x80 ≤ c3 ∧ c3 ≤ 0xBF) ∧
            (b ≠ 0xF0 ∨ 0x90 ≤ c1) ∧ (b ≠ 0xF4 ∨ c1 ≤ 0x8F) then
          (utf8Chars rest2).map
            (fun cs =>
              (((b - 0xF0) <<< 18) ||| ((c1 - 0x80) <<< 12) |||
                ((c2 - 0x80) <<< 6) ||| (c3 - 0x80)) :: cs)
        else none
      | _ => none
    else none

/-- Strip one trailing carriage return, as `str::lines` does per line. -/
def stripTrailingCR (l : List Nat) : List Nat :=
  if l.getLast? = some 13 then l.dropLast else l

/-- Model of Rust `str::lines` over codepoint lists: split on newline, drop
the empty piece produced by a final line terminator, strip a trailing
carriage return from each line. -/
def rustLines (l : List Nat) : List (List Nat) :=
  let parts := l.splitOn 10
  let parts := if parts.getLast? = some [] then parts.dropLast else parts
  parts.map stripTrailingCR

/-- The per-filename loop of `MPQ::get_files`: resolve each listfile line,
skipping names without a hash entry, and otherwise index the block table
(unchecked — `none` is the panic on an out-of-range block index) to pair
the name with the plaintext size of the block. -/
def collectFiles (m : MPQ) : List (List Nat) → Option (List (List Nat × Nat))
  | [] => some []
  | f :: rest =>
    match get_hash_table_entry m f with
    | none => none
    | some none => collectFiles m rest
    | some (some hashEntry) =>
      match m.block_table_entries.get? hashEntry.block_table_index with
      | none => none
      | some blockEntry =>
        (collectFiles m rest).map (fun l => (f, blockEntry.size) :: l)

/-- Codepoints of the `(listfile)` pseudo-filename. -/
def listfileName : List Nat := "(listfile)".data.map Char.toNat

/-- Embedding of `MPQ::get_files`: read the `(listfile)` sector (panicking if that read
fails), decode it as UTF-8, split into lines and collect each resolvable
name with its plaintext size. -/
def get_files (zlibD bzipD : List Nat → Option (List Nat)) (m : MPQ)
    (origInput : List Nat) : Option (List (List Nat × Nat)) :=
  match read_mpq_file_sector zlibD bzipD m listfileName false origInput with
  | .ok buf =>
    match utf8Chars buf with
    | none => none
    | some chars => collectFiles m (rustLines chars)
  | _ => none

/-! Concrete archives used to instantiate the theorems.  The codec oracles
`zlibNone`/`bzipNone` stand in for the external decoders; none of the
concrete runs below ever invokes them. -/

/-- Codec oracle that always fails; never reached in the concrete runs. -/
def zlibNone : List Nat → Option (List Nat) := fun _ => none

/-- Codec oracle that always fails; never reached in the concrete runs. -/
def bzipNone : List Nat → Option (List Nat) := fun _ => none

/-- Codepoints of a Lean string literal. -/
def cpOf (s : String) : List Nat := s.data.map Char.toNat

/-- A minimal archive header: all offsets zero, sector size shift zero. -/
def headerZero : MPQFileHeader := ⟨0, 0, 0, 0, 0, 0, 0, 0, none, 0⟩

/-- An archive header recording a 2-slot hash table, for the lookup tests. -/
def headerTwoSlots : MPQFileHeader := ⟨0, 0, 0, 0, 0, 0, 2, 0, none, 0⟩

/-- Codepoints of the filename `file.txt` used by the concrete archives. -/
def fileTxt : List Nat := [102, 105, 108, 101, 46, 116, 120, 116]

/-- Codepoints of the one-letter filename `a` listed in the C9 listfile. -/
def nameA : List Nat := [97]

/-- Block entry with EXISTS set, SINGLE_UNIT clear, nonzero sizes. -/
def blockC1 : MPQBlockTableEntry := ⟨0, 12, 4, 0x80000000⟩

/-- Hash entry binding `file.txt` (HashA 3645141129, HashB 1604733482)
to block 0. -/
def entryC1 : MPQHashTableEntry := ⟨3645141129, 1604733482, 0, 0, 0⟩

/-- Archive for the C1 run: one file, one block, SINGLE_UNIT clear. -/
def mpqC1 : MPQ := ⟨headerZero, none, [entryC1], [blockC1], prepare_encryption_table⟩

/-- Input buffer for the C1 run: position table [8, 12] then one raw
4-byte sector. -/
def inputC1 : List Nat := [8, 0, 0, 0, 12, 0, 0, 0, 9, 9, 9, 9]

/-- A never-used hash slot: block index 0xFFFFFFFF. -/
def sentinelC6 : MPQHashTableEntry := ⟨0xFFFFFFFF, 0xFFFFFFFF, 0xFFFF, 0xFFFF, 0xFFFFFFFF⟩

/-- Matching hash entry placed after the sentinel slot. -/
def entryC6 : MPQHashTableEntry := ⟨3645141129, 1604733482, 0, 0, 0⟩

/-- Archive for the C6 run: the home slot of `file.txt` (its TableOffset
hash is even, so slot 0 of 2) holds a never-used sentinel, and the matching
entry sits in the following slot. -/
def mpqC6 : MPQ :=
  ⟨headerTwoSlots, none, [sentinelC6, entryC6], [], prepare_encryption_table⟩

/-- Block entry with EXISTS and ENCRYPTED set. -/
def blockC7 : MPQBlockTableEntry := ⟨0, 4, 4, 0x80010000⟩

/-- Hash entry binding `file.txt` to the encrypted block. -/
def entryC7 : MPQHashTableEntry := ⟨3645141129, 1604733482, 0, 0, 0⟩

/-- Archive for the C7 run: one encrypted file. -/
def mpqC7 : MPQ := ⟨headerZero, none, [entryC7], [blockC7], prepare_encryption_table⟩

/-- Input buffer for the C7 run. -/
def inputC7 : List Nat := [1, 2, 3, 4]

/-- Block entry for the C9 listfile: EXISTS and SINGLE_UNIT set,
plaintext size exceeding archived size so the blob is decompressed. -/
def blockListfileC9 : MPQBlockTableEntry := ⟨0, 3, 4, 0x81000000⟩

/-- Hash entry binding `(listfile)` to block 0. -/
def entryListfileC9 : MPQHashTableEntry := ⟨4251285776, 1318820007, 0, 0, 0⟩

/-- Hash entry whose block index is the deleted-tombstone value
0xFFFFFFFE, far beyond the one-entry block table. -/
def entryAC9 : MPQHashTableEntry := ⟨2343791050, 496225328, 0, 0, 0xFFFFFFFE⟩

/-- Archive for the C9 run. -/
def mpqC9 : MPQ :=
  ⟨headerZero, none, [entryListfileC9, entryAC9], [blockListfileC9], prepare_encryption_table⟩

/-- Input buffer for the C9 run: a plaintext-tagged blob whose content is
the listfile text consisting of the line `a`. -/
def inputC9 : List Nat := [0, 97, 10]

/-- Archive with an empty hash table, for the C2 witness. -/
def mpqC2 : MPQ := ⟨headerZero, none, [], [], prepare_encryption_table⟩

/-! ### Structure of the encryption table

The inner loop inserts at indices `i, i + 0x100, ..., i + 0x400`; folding
over `0..256` therefore populates exactly the indices `0..1280`. -/

lemma cryptInner_acc (seed i : Nat) (acc : List (Nat × Nat)) :
    ∃ v0 v1 v2 v3 v4, (cryptInner (seed, acc) i).2.2 =
      (i + 0x100 + 0x100 + 0x100 + 0x100, v4) :: (i + 0x100 + 0x100 + 0x100, v3) ::
        (i + 0x100 + 0x100, v2) :: (i + 0x100, v1) :: (i, v0) :: acc :=
  ⟨_, _, _, _, _, rfl⟩

lemma cryptInner_mono (seed i : Nat) (acc : List (Nat × Nat)) (p : Nat × Nat)
    (hp : p ∈ acc) : p ∈ (cryptInner (seed, acc) i).2.2 := by
  obtain ⟨v0, v1, v2, v3, v4, h⟩ := cryptInner_acc seed i acc
  rw [h]
  simp [hp]

lemma cryptInner_key (seed i j : Nat) (acc : List (Nat × Nat)) (hj : j < 5) :
    ∃ v, (i + 0x100 * j, v) ∈ (cryptInner (seed, acc) i).2.2 := by
  obtain ⟨v0, v1, v2, v3, v4, h⟩ := cryptInner_acc seed i acc
  rw [h]
  interval_cases j
  · exact ⟨v0, by norm_num⟩
  · exact ⟨v1, by norm_num⟩
  · exact ⟨v2, by norm_num⟩
  · exact ⟨v3, by norm_num⟩
  · exact ⟨v4, by norm_num⟩

lemma cryptInner_bound (seed i : Nat) (acc : List (Nat × Nat)) (p : Nat × Nat)
    (hp : p ∈ (cryptInner (seed, acc) i).2.2) :
    p.1 ≤ i + 0x400 ∨ p ∈ acc := by
  obtain ⟨v0, v1, v2, v3, v4, h⟩ := cryptInner_acc seed i acc
  rw [h] at hp
  simp only [List.mem_cons] at hp
  rcases hp with rfl | rfl | rfl | rfl | rfl | hp
  · left; omega
  · left; omega
  · left; omega
  · left; omega
  · left; omega
  · right; exact hp

lemma cryptInner_length (seed i : Nat) (acc : List (Nat × Nat)) :
    (cryptInner (seed, acc) i).2.2.length = acc.length + 5 := by
  obtain ⟨v0, v1, v2, v3, v4, h⟩ := cryptInner_acc seed i acc
  rw [h]
  simp

lemma foldl_cryptOuter_mono (l : List Nat) :
    ∀ (st : Nat × List (Nat × Nat)) (p : Nat × Nat), p ∈ st.2 →
      p ∈ (l.foldl cryptOuter st).2 := by
  induction l with
  | nil => intro st p hp; simpa using hp
  | cons a l ih =>
    intro st p hp
    rw [List.foldl_cons]
    obtain ⟨s, acc⟩ := st
    exact ih _ p (cryptInner_mono s a acc p hp)

lemma foldl_cryptOuter_key (l : List Nat) :
    ∀ (st : Nat × List (Nat × Nat)) (i j : Nat), i ∈ l → j < 5 →
      ∃ v, (i + 0x100 * j, v) ∈ (l.foldl cryptOuter st).2 := by
  induction l with
  | nil => simp
  | cons a l ih =>
    intro st i j hi hj
    rw [List.foldl_cons]
    rcases List.mem_cons.mp hi with rfl | hi
    · obtain ⟨s, acc⟩ := st
      obtain ⟨v, hv⟩ := cryptInner_key s i j acc hj
      exact ⟨v, foldl_cryptOuter_mono l _ _ hv⟩
    · exact ih _ i j hi hj

lemma foldl_cryptOuter_bound (l : List Nat) :
    ∀ (st : Nat × List (Nat × Nat)), (∀ i ∈ l, i < 256) →
      (∀ p ∈ st.2, p.1 < 1280) → ∀ p ∈ (l.foldl cryptOuter st).2, p.1 < 1280 := by
  induction l with
  | nil => intro st _ hst p hp; exact hst p (by simpa using hp)
  | cons a l ih =>
    intro st hl hst p hp
    rw [List.foldl_cons] at hp
    refine ih _ (fun i h => hl i (List.mem_cons_of_mem a h)) ?_ p hp
    intro q hq
    obtain ⟨s, acc⟩ := st
    rcases cryptInner_bound s a acc q hq with h | h
    · have : a < 256 := hl a (List.mem_cons_self a l)
      omega
    · exact hst q h

lemma foldl_cryptOuter_length (l : List Nat) :
    ∀ (st : Nat × List (Nat × Nat)),
      (l.foldl cryptOuter st).2.length = st.2.length + 5 * l.length := by
  induction l with
  | nil => simp
  | cons a l ih =>
    intro st
    rw [List.foldl_cons, ih]
    obtain ⟨s, acc⟩ := st
    have := cryptInner_length s a acc
    simp only [List.length_cons]
    change (cryptInner (s, acc) a).2.2.length + 5 * l.length = _
    omega

lemma prepare_encryption_table_length : prepare_encryption_table.length = 1280 := by
  unfold prepare_encryption_table
  rw [foldl_cryptOuter_length]
  simp

lemma hmGet_isSome_of_lt {k : Nat} (hk : k < 1280) :
    (hmGet prepare_encryption_table k).isSome := by
  obtain ⟨v, hv⟩ := foldl_cryptOuter_key (List.range 256) (0x00100001, [])
    (k % 256) (k / 256) (List.mem_range.mpr (Nat.mod_lt _ (by norm_num))) (by omega)
  have hkey : k % 256 + 0x100 * (k / 256) = k := Nat.mod_add_div k 256
  rw [hkey] at hv
  have hfind : (List.find? (fun p => p.1 == k) prepare_encryption_table).isSome := by
    rw [List.find?_isSome]
    exact ⟨(k, v), hv, by simp⟩
  obtain ⟨a, ha⟩ := Option.isSome_iff_exists.mp hfind
  unfold hmGet
  rw [ha]
  rfl

lemma hmGet_none_of_ge {k : Nat} (hk : 1280 ≤ k) :
    hmGet prepare_encryption_table k = none := by
  have h : List.find? (fun p => p.1 == k) prepare_encryption_table = none := by
    rw [List.find?_eq_none]
    intro p hp
    have hb : p.1 < 1280 :=
      foldl_cryptOuter_bound (List.range 256) _ (fun i h => List.mem_range.mp h)
        (by simp) p hp
    simp only [beq_iff_eq]
    omega
  unfold hmGet
  rw [h]
  rfl

/-! ### The stream decryptor: word count and slice bounds -/

lemma decryptLoop_cons (table : List (Nat × Nat)) (data : List Nat) (a : Nat)
    (l : List Nat) (st : Option (Nat × Nat × List Nat)) :
    decryptLoop table data (a :: l) st =
      decryptLoop table data l (st.bind (fun s => decryptStep table data s a)) := rfl

lemma decryptLoop_append (table : List (Nat × Nat)) (data : List Nat)
    (l1 l2 : List Nat) (st : Option (Nat × Nat × List Nat)) :
    decryptLoop table data (l1 ++ l2) st =
      decryptLoop table data l2 (decryptLoop table data l1 st) := by
  unfold decryptLoop
  rw [List.foldl_append]

lemma decryptStep_some (data : List Nat) (st : Nat × Nat × List Nat) (i : Nat)
    (hib : 4 * i + 4 ≤ data.length) :
    ∃ st2 w, decryptStep prepare_encryption_table data st i = some st2 ∧
      st2.2.2 = st.2.2 ++ toLE32 w := by
  have hlt : st.1 &&& 0xFF ≤ 0xFF := Nat.and_le_right
  obtain ⟨v, hv⟩ := Option.isSome_iff_exists.mp
    (hmGet_isSome_of_lt (k := 0x400 + (st.1 &&& 0xFF)) (by omega))
  unfold decryptStep
  simp only [hv]
  rw [if_neg (by omega)]
  exact ⟨_, _, rfl, rfl⟩

lemma decryptStep_oob (data : List Nat) (st : Nat × Nat × List Nat) (i : Nat)
    (hib : data.length < 4 * i + 4) :
    decryptStep prepare_encryption_table data st i = none := by
  have hlt : st.1 &&& 0xFF ≤ 0xFF := Nat.and_le_right
  obtain ⟨v, hv⟩ := Option.isSome_iff_exists.mp
    (hmGet_isSome_of_lt (k := 0x400 + (st.1 &&& 0xFF)) (by omega))
  unfold decryptStep
  simp only [hv]
  rw [if_pos hib]

lemma decryptLoop_some_length (data : List Nat) (l : List Nat) :
    (∀ i ∈ l, 4 * i + 4 ≤ data.length) → ∀ st : Nat × Nat × List Nat,
      ∃ st2, decryptLoop prepare_encryption_table data l (some st) = some st2 ∧
        st2.2.2.length = st.2.2.length + 4 * l.length := by
  induction l with
  | nil => intro _ st; exact ⟨st, rfl, by simp⟩
  | cons a l ih =>
    intro hb st
    obtain ⟨st2, w, hstep, hres⟩ := decryptStep_some data st a (hb a (List.mem_cons_self a l))
    obtain ⟨st3, hloop, hlen⟩ := ih (fun i hi => hb i (List.mem_cons_of_mem a hi)) st2
    refine ⟨st3, ?_, ?_⟩
    · rw [decryptLoop_cons,
        show ((some st).bind fun s => decryptStep prepare_encryption_table data s a) =
          decryptStep prepare_encryption_table data st a from rfl,
        hstep]
      exact hloop
    · rw [hlen, hres]
      have h4 : (toLE32 w).length = 4 := by simp [toLE32]
      simp only [List.length_append, List.length_cons, h4]
      omega

lemma decryptWords_of_le {n : Nat} (h : n ≤ 2 ^ 24) : decryptWords n = n / 4 := by
  rcases Nat.lt_or_ge n (2 ^ 24) with h1 | h1
  · unfold decryptWords f32RoundNat
    rw [if_pos h1]
  · have h2 : n = 2 ^ 24 := by omega
    subst h2
    decide

lemma decryptStep_take (data : List Nat) (i : Nat) (hi : i < data.length / 4)
    (st : Nat × Nat × List Nat) :
    decryptStep prepare_encryption_table (data.take (4 * (data.length / 4))) st i =
      decryptStep prepare_encryption_table data st i := by
  have hle : 4 * (data.length / 4) ≤ data.length := by
    have := Nat.div_mul_le_self data.length 4
    omega
  have hlen : (data.take (4 * (data.length / 4))).length = 4 * (data.length / 4) := by
    rw [List.length_take]
    omega
  have h4 : ∀ j, j < 4 →
      (data.take (4 * (data.length / 4))).getD (4 * i + j) 0 = data.getD (4 * i + j) 0 := by
    intro j hj
    rw [List.getD_eq_getElem?_getD, List.getD_eq_getElem?_getD, List.getElem?_take,
      if_pos (by omega)]
  have h0 : (data.take (4 * (data.length / 4))).getD (4 * i) 0 = data.getD (4 * i) 0 := by
    have := h4 0 (by omega)
    simpa using this
  have hr : readLE32 (data.take (4 * (data.length / 4))) (4 * i) = readLE32 data (4 * i) := by
    unfold readLE32
    rw [h0, h4 1 (by omega), h4 2 (by omega), h4 3 (by omega)]
  have hlt : st.1 &&& 0xFF ≤ 0xFF := Nat.and_le_right
  obtain ⟨v, hv⟩ := Option.isSome_iff_exists.mp
    (hmGet_isSome_of_lt (k := 0x400 + (st.1 &&& 0xFF)) (by omega))
  unfold decryptStep
  simp only [hv]
  rw [hlen, hr, if_neg (show ¬ 4 * (data.length / 4) < 4 * i + 4 by omega),
    if_neg (show ¬ data.length < 4 * i + 4 by omega)]

lemma foldl_congr_on {α β : Type} (l : List β) (f g : α → β → α) :
    (∀ i ∈ l, ∀ st, f st i = g st i) → ∀ st, l.foldl f st = l.foldl g st := by
  induction l with
  | nil => intro _ st; rfl
  | cons a l ih =>
    intro h st
    rw [List.foldl_cons, List.foldl_cons, h a (List.mem_cons_self a l)]
    exact ih (fun i hi st2 => h i (List.mem_cons_of_mem a hi) st2) _

lemma mpq_data_decrypt_take (data : List Nat) (key : Nat) (hlen : data.length ≤ 2 ^ 24) :
    mpq_data_decrypt prepare_encryption_table (data.take (4 * (data.length / 4))) key =
      mpq_data_decrypt prepare_encryption_table data key := by
  unfold mpq_data_decrypt
  have hle : 4 * (data.length / 4) ≤ data.length := by
    have := Nat.div_mul_le_self data.length 4
    omega
  have hlen2 : (data.take (4 * (data.length / 4))).length = 4 * (data.length / 4) := by
    rw [List.length_take]
    omega
  rw [hlen2, decryptWords_of_le (by omega), decryptWords_of_le hlen,
    Nat.mul_div_cancel_left _ (by norm_num)]
  have hcong : decryptLoop prepare_encryption_table (data.take (4 * (data.length / 4)))
      (List.range (data.length / 4)) (some (key, 0xEEEEEEEE, [])) =
      decryptLoop prepare_encryption_table data (List.range (data.length / 4))
        (some (key, 0xEEEEEEEE, [])) := by
    unfold decryptLoop
    apply foldl_congr_on
    intro i hi acc
    cases acc with
    | none =>
        show (Option.bind none fun s =>
            decryptStep prepare_encryption_table (data.take (4 * (data.length / 4))) s i) =
          Option.bind none fun s => decryptStep prepare_encryption_table data s i
        rw [Option.none_bind, Option.none_bind]
    | some s => exact decryptStep_take data i (List.mem_range.mp hi) s
  rw [hcong]

/-- C3 (amended): with the canonical encryption table, for every buffer of
at most `2 ^ 24` bytes (where the `f32` length cast is exact, so the loop
bound is `floor(len / 4)`), `mpq_data_decrypt` returns successfully,
emits exactly `4 * floor(len / 4)` plaintext bytes, and its output depends
only on the first `4 * floor(len / 4)` input bytes: trailing bytes beyond
the last full word are ignored.  Beyond `2 ^ 24` bytes the `f32` loop
bound diverges from `floor(len / 4)` (see the counterexample). -/
theorem mpq_data_decrypt_word_exact (data : List Nat) (key : Nat)
    (hlen : data.length ≤ 2 ^ 24) :
    (mpq_data_decrypt prepare_encryption_table data key).map List.length =
      some (4 * (data.length / 4)) ∧
    mpq_data_decrypt prepare_encryption_table data key =
      mpq_data_decrypt prepare_encryption_table (data.take (4 * (data.length / 4))) key := by
  constructor
  · unfold mpq_data_decrypt
    rw [decryptWords_of_le hlen]
    obtain ⟨st2, hloop, hlen2⟩ := decryptLoop_some_length data (List.range (data.length / 4))
      (fun i hi => by
        have := List.mem_range.mp hi
        omega) (key, 0xEEEEEEEE, [])
    rw [hloop]
    simp [hlen2]
  · exact (mpq_data_decrypt_take data key hlen).symm

/-- C10: the table index `0x400 + (seed1 & 0xFF)` of the decryptor always
lies in `0x400..=0x4FF`, every index of that range is populated in the
table built by `prepare_encryption_table`, and hence no iteration of the
decryption loop ever takes the missing-key `continue` branch: with the
canonical table a step either emits one word (when its 4-byte slice is in
range) or is the out-of-range slice panic — never the silent skip. -/
theorem decrypt_missing_key_unreachable (seed1 k : Nat)
    (h1 : 0x400 ≤ k) (h2 : k ≤ 0x4FF) :
    0x400 ≤ 0x400 + (seed1 &&& 0xFF) ∧ 0x400 + (seed1 &&& 0xFF) ≤ 0x4FF ∧
    (hmGet prepare_encryption_table k).isSome ∧
    ∀ (data : List Nat) (st : Nat × Nat × List Nat) (i : Nat),
      (4 * i + 4 ≤ data.length → ∃ st2 w,
        decryptStep prepare_encryption_table data st i = some st2 ∧
          st2.2.2 = st.2.2 ++ toLE32 w) ∧
      (data.length < 4 * i + 4 →
        decryptStep prepare_encryption_table data st i = none) := by
  refine ⟨by omega, ?_, hmGet_isSome_of_lt (by omega), ?_⟩
  · have := Nat.and_le_right (n := seed1) (m := 0xFF)
    omega
  · intro data st i
    exact ⟨fun hib => decryptStep_some data st i hib,
      fun hib => decryptStep_oob data st i hib⟩

/-- Witness for C10 at a concrete seed and a concrete in-range index. -/
theorem decrypt_missing_key_unreachable_witness :
    0x400 ≤ 0x400 + (0xDEADBEEF &&& 0xFF) ∧ 0x400 + (0xDEADBEEF &&& 0xFF) ≤ 0x4FF ∧
    (hmGet prepare_encryption_table 0x4AB).isSome := by
  obtain ⟨a, b, c, _⟩ :=
    decrypt_missing_key_unreachable 0xDEADBEEF 0x4AB (by norm_num) (by norm_num)
  exact ⟨a, b, c⟩

/-! ### Case mapping and the string hash -/

lemma toUppercaseCp_append (a b : List Nat) :
    toUppercaseCp (a ++ b) = toUppercaseCp a ++ toUppercaseCp b := by
  unfold toUppercaseCp
  rw [List.map_append, List.flatten_append]

lemma toUppercaseCp_singleton (c : Nat) : toUppercaseCp [c] = rustUpperChar c := by
  unfold toUppercaseCp
  simp

lemma upper_lower_char_ascii (c : Nat) (hc : c < 128) :
    toUppercaseCp (rustLowerChar c) = toUppercaseCp (rustUpperChar c) := by
  by_cases hA : 65 ≤ c ∧ c ≤ 90
  · rw [show rustLowerChar c = [c + 32] from by unfold rustLowerChar; rw [if_pos hA],
      show rustUpperChar c = [c] from by unfold rustUpperChar; rw [if_neg (by omega)],
      toUppercaseCp_singleton, toUppercaseCp_singleton]
    unfold rustUpperChar
    rw [if_pos (by omega), if_neg (by omega)]
    congr 1
  · by_cases hB : 97 ≤ c ∧ c ≤ 122
    · rw [show rustLowerChar c = [c] from by
          unfold rustLowerChar; rw [if_neg hA, if_neg (by omega)],
        show rustUpperChar c = [c - 32] from by unfold rustUpperChar; rw [if_pos hB],
        toUppercaseCp_singleton, toUppercaseCp_singleton]
      unfold rustUpperChar
      rw [if_pos hB, if_neg (by omega)]
    · rw [show rustLowerChar c = [c] from by
          unfold rustLowerChar; rw [if_neg hA, if_neg (by omega)],
        show rustUpperChar c = [c] from by unfold rustUpperChar; rw [if_neg hB]]

lemma toUppercaseCp_lower_eq_upper : ∀ (s : List Nat), (∀ c ∈ s, c < 128) →
    toUppercaseCp (toLowercaseCp s) = toUppercaseCp (toUppercaseCp s) := by
  intro s
  induction s with
  | nil => intro _; rfl
  | cons c cs ih =>
    intro hascii
    have hc : c < 128 := hascii c (List.mem_cons_self c cs)
    have ih2 := ih (fun x hx => hascii x (List.mem_cons_of_mem c hx))
    calc toUppercaseCp (toLowercaseCp (c :: cs))
        = toUppercaseCp (rustLowerChar c ++ toLowercaseCp cs) := rfl
      _ = toUppercaseCp (rustLowerChar c) ++ toUppercaseCp (toLowercaseCp cs) :=
          toUppercaseCp_append _ _
      _ = toUppercaseCp (rustUpperChar c) ++ toUppercaseCp (toUppercaseCp cs) := by
          rw [upper_lower_char_ascii c hc, ih2]
      _ = toUppercaseCp (rustUpperChar c ++ toUppercaseCp cs) :=
          (toUppercaseCp_append _ _).symm
      _ = toUppercaseCp (toUppercaseCp (c :: cs)) := rfl

/-- C8 (amended): for every string of ASCII codepoints, every table and
every hash domain, hashing the lowercased string equals hashing the
uppercased string, because `mpq_string_hash` uppercases its input before
mixing.  Off ASCII the program violates the property (see the
counterexample at U+0130). -/
theorem mpq_string_hash_case_insensitive (table : List (Nat × Nat)) (s : List Nat)
    (d : MPQHashType) (hascii : ∀ c ∈ s, c < 128) :
    mpq_string_hash table (toLowercaseCp s) d =
      mpq_string_hash table (toUppercaseCp s) d := by
  unfold mpq_string_hash
  rw [toUppercaseCp_lower_eq_upper s hascii]

/-! ### A literal copy of the encryption table

Concrete evaluations (hash constants, archive runs) reduce lookups against a
fully evaluated literal table; the equality with `prepare_encryption_table`
is proved in four quarter-sized runs to keep kernel evaluation shallow. -/

/-- Table entries inserted during quarter 1 of the outer loop
(most recent first). -/
def cryptPairs1 : List (Nat × Nat) := [
  (1087, 791765026), (831, 76495289), (575, 1816167895), (319, 1634067331), (63, 665148307),
  (1086, 2473633857), (830, 4173953539), (574, 3348613635), (318, 1805727798), (62, 4183496373),
  (1085, 3225476910), (829, 4152679247), (573, 707565436), (317, 809762), (61, 4277939121),
  (1084, 3263407236), (828, 915996022), (572, 1948168861), (316, 401562204), (60, 2548268843),
  (1083, 3135039477), (827, 1094791671), (571, 2277000394), (315, 414606879), (59, 223182462),
  (1082, 2522069975), (826, 1977585109), (570, 3607209510), (314, 2394468301), (58, 1036046683),
  (1081, 599640196), (825, 1410075096), (569, 332793029), (313, 1927069693), (57, 3414800177),
  (1080, 1269472408), (824, 2496111905), (568, 2236947059), (312, 3812685349), (56, 1584230505),
  (1079, 1031078431), (823, 1693337644), (567, 2227688734), (311, 2802465384), (55, 3483941463),
  (1078, 3855058807), (822, 500469892), (566, 1240931736), (310, 2961453153), (54, 2635773347),
  (1077, 631573550), (821, 1817043349), (565, 2350081336), (309, 3827831344), (53, 188600842),
  (1076, 94771021), (820, 3039633791), (564, 1638225958), (308, 2511235911), (52, 1512397123),
  (1075, 2814350032), (819, 2432529940), (563, 1210202229), (307, 3862981919), (51, 3348854420),
  (1074, 2892333727), (818, 3955257861), (562, 559149091), (306, 964716727), (50, 4174697669),
  (1073, 3898460850), (817, 2171635975), (561, 761517051), (305, 3592216822), (49, 4013849577),
  (1072, 3367721117), (816, 1627610739), (560, 118037001), (304, 2125519840), (48, 1639714300),
  (1071, 568713744), (815, 1257040493), (559, 4231210184), (303, 886163978), (47, 3207835964),
  (1070, 871302735), (814, 1866004712), (558, 929303504), (302, 2113635204), (46, 2665583560),
  (1069, 3277042896), (813, 2142438650), (557, 1184069058), (301, 2711984158), (45, 291885966),
  (1068, 1289783643), (812, 967605818), (556, 393879867), (300, 1523603346), (44, 2634153646),
  (1067, 1053031022), (811, 516797626), (555, 1368861680), (299, 1184660011), (43, 249359382),
  (1066, 681935665), (810, 3920369895), (554, 3543080412), (298, 3549164903), (42, 4258021853),
  (1065, 2079950980), (809, 1817218463), (553, 1583179938), (297, 1437740321), (41, 3073558709),
  (1064, 550044198), (808, 2768912495), (552, 988748786), (296, 2868717585), (40, 3395079898),
  (1063, 2834354820), (807, 1165968449), (551, 2491975260), (295, 2955981312), (39, 4082969008),
  (1062, 2395497012), (806, 1010723398), (550, 2740328020), (294, 625401295), (38, 511522887),
  (1061, 3885635095), (805, 2762609038), (549, 1040336627), (293, 2984740953), (37, 2492828848),
  (1060, 1927157338), (804, 3555402859), (548, 1266452002), (292, 3586066636), (36, 1146773483),
  (1059, 3967536473), (803, 2886665026), (547, 941319436), (291, 3821177608), (35, 3316417765),
  (1058, 420932191), (802, 3729448815), (546, 1027335626), (290, 3556497113), (34, 3731659421),
  (1057, 2184724455), (801, 2840045469), (545, 2882528256), (289, 3364656865), (33, 550941465),
  (1056, 1765696320), (800, 3261043439), (544, 1786707842), (288, 4046330047), (32, 2347411060),
  (1055, 1809645505), (799, 226224726), (543, 1762281942), (287, 2420710962), (31, 2327690817),
  (1054, 3653588244), (798, 4102645447), (542, 2230271496), (286, 2247102660), (30, 4158348079),
  (1053, 2720235591), (797, 1742736790), (541, 685612679), (285, 3687031676), (29, 1373961292),
  (1052, 1967867291), (796, 3140183021), (540, 2425569882), (284, 2895704262), (28, 832934602),
  (1051, 3487640424), (795, 1968480092), (539, 3176581191), (283, 3547348375), (27, 861606769),
  (1050, 1026110015), (794, 1713320531), (538, 2156293119), (282, 1635139891), (26, 1010570213),
  (1049, 2608217580), (793, 607213204), (537, 2300528982), (281, 3857313101), (25, 3453824916),
  (1048, 2656172055), (792, 3913628666), (536, 1902972106), (280, 408719254), (24, 1815182973),
  (1047, 1802050779), (791, 2637962108), (535, 1789027915), (279, 1100548014), (23, 1500950171),
  (1046, 712796458), (790, 2194442289), (534, 3272971917), (278, 2936020365), (22, 2874014180),
  (1045, 496902342), (789, 2030398664), (533, 2837265850), (277, 2907326379), (21, 625138647),
  (1044, 1610779536), (788, 1155353215), (532, 488672733), (276, 1342225050), (20, 461707925),
  (1043, 3853198439), (787, 4230378456), (531, 1525047878), (275, 1667270105), (19, 1583705256),
  (1042, 3127357142), (786, 2213352778), (530, 355030278), (274, 1080783929), (18, 1169711127),
  (1041, 189936054), (785, 764143492), (529, 1630784286), (273, 329794478), (17, 2279889477),
  (1040, 3809183460), (784, 2100984486), (528, 3015864391), (272, 1463588943), (16, 2223989854),
  (1039, 2722665080), (783, 1962833242), (527, 2297311592), (271, 1114533808), (15, 2474027827),
  (1038, 1097702612), (782, 3138475833), (526, 1645404871), (270, 1023986919), (14, 3138059889),
  (1037, 2139505766), (781, 1967276337), (525, 952044159), (269, 4177674400), (13, 2774340542),
  (1036, 3346490622), (780, 1975615285), (524, 2469037584), (268, 719318719), (12, 1020134862),
  (1035, 2909077279), (779, 642604603), (523, 3598892392), (267, 3774908293), (11, 2978087373),
  (1034, 984830982), (778, 1668233156), (522, 2186934951), (266, 1016939331), (10, 852348408),
  (1033, 2600163099), (777, 2701456453), (521, 1903935075), (265, 4054143700), (9, 3555315213),
  (1032, 769987442), (776, 1436339499), (520, 1134472900), (264, 1556871607), (8, 1511718578),
  (1031, 1442139613), (775, 3762848532), (519, 3720562716), (263, 2445990446), (7, 1501387941),
  (1030, 3124599377), (774, 4008618524), (518, 4105622048), (262, 3894937102), (6, 2002426916),
  (1029, 4103827340), (773, 1269822542), (517, 2242703242), (261, 3385953016), (5, 2446296939),
  (1028, 2213046336), (772, 964235283), (516, 2084569206), (260, 1458379853), (4, 3062024201),
  (1027, 2051081964), (771, 867844565), (515, 2678890886), (259, 3783334887), (3, 696578062),
  (1026, 1107858203), (770, 1358005670), (514, 4160120938), (258, 1058940633), (2, 1481339348),
  (1025, 1419179989), (769, 2823564557), (513, 817963899), (257, 3012843986), (1, 46006640),
  (1024, 423274136), (768, 368206291), (512, 1039570525), (256, 1996014001), (0, 1439053538)]

/-- Table entries inserted during quarter 2 of the outer loop
(most recent first). -/
def cryptPairs2 : List (Nat × Nat) := [
  (1151, 2408782520), (895, 1457438621), (639, 1442599232), (383, 3302782142), (127,
  1260958307), (1150, 399592370), (894, 3578865784), (638, 4270234796), (382, 1833918352), (126,
  3937485592), (1149, 1762369427), (893, 2910762606), (637, 1456869655), (381, 1090917677),
  (125, 1532467568), (1148, 4146966748), (892, 1507100441), (636, 2680860714), (380, 618069120),
  (124, 2392914296), (1147, 1108055193), (891, 167129693), (635, 1218191053), (379, 3464615140),
  (123, 3089317481), (1146, 317822190), (890, 3537958727), (634, 1472715812), (378, 2281793656),
  (122, 2322634916), (1145, 320251647), (889, 607103698), (633, 2193960805), (377, 3775608745),
  (121, 3858188667), (1144, 703691436), (888, 1416509870), (632, 820262031), (376, 3855014966),
  (120, 2976029902), (1143, 3289387295), (887, 2848822185), (631, 1804699084), (375,
  1709818557), (119, 352994756), (1142, 2443736121), (886, 1479500839), (630, 108450377), (374,
  1750112679), (118, 184792510), (1141, 3728332577), (885, 1012080418), (629, 2774800131), (373,
  3310398811), (117, 1499439967), (1140, 901988404), (884, 3075725526), (628, 2996406784), (372,
  2233904677), (116, 177285289), (1139, 4079948595), (883, 994986575), (627, 2030967752), (371,
  3280566733), (115, 1759939971), (1138, 1902424836), (882, 2888372205), (626, 1382781816),
  (370, 2066118339), (114, 3551922827), (1137, 326007955), (881, 2771013639), (625, 870055051),
  (369, 3024597306), (113, 268598180), (1136, 3550390638), (880, 2609421306), (624, 3611455621),
  (368, 2943111751), (112, 1346186695), (1135, 3481643331), (879, 3012887827), (623, 433823697),
  (367, 2669785873), (111, 3344236171), (1134, 1870644788), (878, 917768994), (622, 2903102131),
  (366, 2185599915), (110, 1395826540), (1133, 350346364), (877, 1771912254), (621, 297095177),
  (365, 3050949349), (109, 3726953700), (1132, 3866549482), (876, 26286350), (620, 2369516998),
  (364, 1127359649), (108, 3127203994), (1131, 1284443242), (875, 3401317683), (619, 573441464),
  (363, 1030312323), (107, 1433209706), (1130, 4005444977), (874, 3893842726), (618,
  3740567465), (362, 4127925052), (106, 4003190518), (1129, 942567028), (873, 2146969262), (617,
  616493220), (361, 1499855748), (105, 1121537674), (1128, 3396239934), (872, 1899404438), (616,
  1098030921), (360, 334937853), (104, 2189649027), (1127, 1364943880), (871, 2838973025), (615,
  3357324692), (359, 3143838177), (103, 430343664), (1126, 1373567329), (870, 376348250), (614,
  4103170733), (358, 2200592601), (102, 1928164110), (1125, 3734657975), (869, 1467572396),
  (613, 3177369135), (357, 249643964), (101, 462605198), (1124, 689749330), (868, 807742644),
  (612, 3998659915), (356, 1848911033), (100, 2690928833), (1123, 2972746843), (867, 836392815),
  (611, 4012645825), (355, 778939191), (99, 2989643713), (1122, 229464096), (866, 2063535730),
  (610, 4130770333), (354, 2629776334), (98, 785570916), (1121, 939809230), (865, 435530875),
  (609, 1323817991), (353, 3731331119), (97, 320492467), (1120, 3048607532), (864, 724506095),
  (608, 2399961963), (352, 2147428891), (96, 2282559723), (1119, 1956398427), (863, 2615199464),
  (607, 3259336286), (351, 929806816), (95, 2365139653), (1118, 3079840317), (862, 507014135),
  (606, 2631746166), (350, 1906649131), (94, 2657288425), (1117, 420034879), (861, 2683137040),
  (605, 1374968152), (349, 2671208556), (93, 2385888563), (1116, 2380176061), (860, 680709965),
  (604, 2629032123), (348, 770403264), (92, 850553740), (1115, 3108840773), (859, 3874450776),
  (603, 4246706185), (347, 1305717413), (91, 3443187675), (1114, 290594734), (858, 2853221469),
  (602, 2511038927), (346, 542974630), (90, 61349452), (1113, 719209373), (857, 564248795),
  (601, 2263517914), (345, 1836303967), (89, 3126437921), (1112, 2379344281), (856, 2506267499),
  (600, 2955477997), (344, 4195796834), (88, 1249555152), (1111, 1287091541), (855, 3201751301),
  (599, 537393319), (343, 3112802255), (87, 3313069051), (1110, 1806953404), (854, 4247734935),
  (598, 1195187716), (342, 2932233878), (86, 2212542904), (1109, 1332682345), (853, 3166972837),
  (597, 3636450595), (341, 2894369223), (85, 1576088550), (1108, 822341202), (852, 1509902005),
  (596, 3154519096), (340, 2465623215), (84, 1649388329), (1107, 892992689), (851, 1407295357),
  (595, 3840897884), (339, 3547479703), (83, 3882680229), (1106, 980759996), (850, 4266316999),
  (594, 3123964627), (338, 3482190555), (82, 3854599181), (1105, 1333338954), (849, 1516096006),
  (593, 3961517517), (337, 1821968043), (81, 966599075), (1104, 866618822), (848, 49596003),
  (592, 2209500633), (336, 3896906970), (80, 539297618), (1103, 2437979811), (847, 1467287899),
  (591, 2853484106), (335, 1793186419), (79, 2499219948), (1102, 4168000252), (846, 562541610),
  (590, 3982310313), (334, 696315418), (78, 2198557074), (1101, 2943812202), (845, 1870491647),
  (589, 3911024082), (333, 3838840534), (77, 4156246927), (1100, 4287656957), (844, 1544571147),
  (588, 3843371142), (332, 733808110), (76, 1622707975), (1099, 2389937686), (843, 1967932951),
  (587, 1080061657), (331, 2381730066), (75, 3471969295), (1098, 3061477090), (842, 3825598838),
  (586, 2013786306), (330, 1946571140), (74, 1244827547), (1097, 1978219866), (841, 2329135351),
  (585, 535007702), (329, 1780645167), (73, 1253866951), (1096, 1503423431), (840, 42395160),
  (584, 2808396737), (328, 3958453386), (72, 3344455131), (1095, 407055864), (839, 1516446292),
  (583, 3375731758), (327, 2364745687), (71, 1852588015), (1094, 738273053), (838, 4208075563),
  (582, 1889817931), (326, 3330337900), (70, 946550486), (1093, 3447630797), (837, 3180695984),
  (581, 3201182330), (325, 2701741040), (69, 2031843172), (1092, 134123954), (836, 2589941842),
  (580, 112368167), (324, 832956457), (68, 2750505477), (1091, 3453036951), (835, 3853220300),
  (579, 4196300260), (323, 1609707104), (67, 1604585543), (1090, 331392155), (834, 2606291438),
  (578, 3425240407), (322, 2725204004), (66, 2087086178), (1089, 2888612876), (833, 2360674706),
  (577, 1934598891), (321, 3849258769), (65, 1285056048), (1088, 921621041), (832, 1005908157),
  (576, 766310299), (320, 1950882907), (64, 1173497641)]

/-- Table entries inserted during quarter 3 of the outer loop
(most recent first). -/
def cryptPairs3 : List (Nat × Nat) := [
  (1215, 2210244765), (959, 2295013493), (703, 2347498577), (447, 4018905484), (191, 245857484),
  (1214, 2291620935), (958, 3710035008), (702, 127382689), (446, 3534041049), (190, 3218626309),
  (1213, 2472057984), (957, 1789531386), (701, 646938231), (445, 2061850370), (189, 4104746599),
  (1212, 2094484050), (956, 2445333839), (700, 1000589616), (444, 2810060245), (188,
  1493990107), (1211, 263542284), (955, 564314450), (699, 2719469517), (443, 2481797796), (187,
  501148328), (1210, 4283388981), (954, 3901853356), (698, 3427363407), (442, 793450363), (186,
  153625394), (1209, 2224471340), (953, 68265715), (697, 2482957722), (441, 880670275), (185,
  2901723249), (1208, 3261130959), (952, 2200023471), (696, 502767994), (440, 2507033604), (184,
  3579938210), (1207, 1686246261), (951, 3391096563), (695, 1981108955), (439, 3563413462),
  (183, 3876223624), (1206, 2966749832), (950, 3133594940), (694, 1714371112), (438,
  3867337416), (182, 3192383638), (1205, 3349160872), (949, 114359855), (693, 141040302), (437,
  947075783), (181, 3036591452), (1204, 3635793996), (948, 2376477187), (692, 1303944567), (436,
  2571337800), (180, 4199977285), (1203, 995008435), (947, 1641136905), (691, 1212478416), (435,
  1343231946), (179, 2875808973), (1202, 4010479017), (946, 2966312068), (690, 2856460847),
  (434, 2795264540), (178, 2295363614), (1201, 1763792144), (945, 88314257), (689, 4180334),
  (433, 358816766), (177, 3529663622), (1200, 2486700512), (944, 3702352640), (688, 3465840879),
  (432, 1432181001), (176, 1870469792), (1199, 353191733), (943, 922627910), (687, 3479585973),
  (431, 3638726917), (175, 3659804188), (1198, 3264895614), (942, 2115802022), (686,
  2604387267), (430, 599815325), (174, 253299160), (1197, 169602830), (941, 2963729306), (685,
  3411823571), (429, 2120814233), (173, 3430186830), (1196, 3384836777), (940, 643633314), (684,
  3573590952), (428, 1620650666), (172, 2193413572), (1195, 1163560840), (939, 3626864094),
  (683, 2966377732), (427, 787869086), (171, 2772611376), (1194, 2856044888), (938, 3679261818),
  (682, 2443473509), (426, 4289517271), (170, 1153076909), (1193, 3984105023), (937,
  1169732977), (681, 537261999), (425, 74766156), (169, 537415307), (1192, 654292266), (936,
  1222262034), (680, 519270888), (424, 2841686986), (168, 3240841705), (1191, 1642844086), (935,
  3797145555), (679, 2462099379), (423, 2387683350), (167, 2327384454), (1190, 3016521002),
  (934, 1955873180), (678, 3991284022), (422, 926676906), (166, 2628484971), (1189, 3350255167),
  (933, 1774232245), (677, 3256928653), (421, 328393604), (165, 2959111222), (1188, 3819645535),
  (932, 2125082162), (676, 4038472584), (420, 2115211069), (164, 2203678667), (1187,
  1641399546), (931, 486024439), (675, 1889029996), (419, 4103411566), (163, 677426909), (1186,
  2675038744), (930, 2665999389), (674, 2318454465), (418, 574754673), (162, 253058334), (1185,
  1319900314), (929, 2969704582), (673, 4095181949), (417, 6259625), (161, 3120462737), (1184,
  2211514274), (928, 3686593907), (672, 3612900166), (416, 2306525980), (160, 4093212118),
  (1183, 672546136), (927, 692397709), (671, 4012689498), (415, 1533146004), (159, 2894456697),
  (1182, 2447478799), (926, 3472428929), (670, 779880397), (414, 3592829717), (158, 982445197),
  (1181, 702531360), (925, 3512569778), (669, 4250448858), (413, 1519773019), (157, 1940661655),
  (1180, 363347375), (924, 463021147), (668, 542843308), (412, 2038409266), (156, 3659629055),
  (1179, 135240187), (923, 826237185), (667, 1583355104), (411, 3779198121), (155, 3111357713),
  (1178, 3585388083), (922, 2654968306), (666, 3823847841), (410, 3996733874), (154,
  1582129356), (1177, 3665932514), (921, 2226878950), (665, 3584140519), (409, 1761997314),
  (153, 3098116049), (1176, 1730523722), (920, 2635970329), (664, 3752736735), (408,
  1696117227), (152, 3355398668), (1175, 1767053345), (919, 2211076503), (663, 3782328022),
  (407, 2509244228), (151, 3983163917), (1174, 3928402390), (918, 3187284071), (662,
  1752148166), (406, 1761844173), (150, 364748076), (1173, 2666283970), (917, 311628200), (661,
  2349599856), (405, 27030479), (149, 1131890260), (1172, 2203831814), (916, 782878820), (660,
  2445290163), (404, 610693233), (148, 741971928), (1171, 3940615458), (915, 1236991957), (659,
  1686421262), (403, 8032473), (147, 3272205840), (1170, 4039391801), (914, 1957821035), (658,
  2894631861), (402, 2645666304), (146, 2068000687), (1169, 243909516), (913, 2203744324), (657,
  4240555908), (401, 4005444970), (145, 4266667243), (1168, 2987717555), (912, 1649957420),
  (656, 971961297), (400, 991572207), (144, 3316877395), (1167, 2442838727), (911, 3475471197),
  (655, 11621967), (399, 1193830691), (143, 1118867438), (1166, 216922724), (910, 2869768164),
  (654, 2962853900), (398, 1517671865), (142, 4228211638), (1165, 1586287862), (909,
  2912841911), (653, 3472844746), (397, 4141823370), (141, 1961673166), (1164, 1530038124),
  (908, 249753339), (652, 138785880), (396, 62334365), (140, 212435913), (1163, 2122937209),
  (907, 4057076594), (651, 603273531), (395, 1151172769), (139, 2522113779), (1162, 298780505),
  (906, 1357677367), (650, 508480533), (394, 1978132220), (138, 1832670791), (1161, 1248526560),
  (905, 1768300893), (649, 3138169381), (393, 128411447), (137, 3406548713), (1160, 2750067661),
  (904, 1499330497), (648, 2506223701), (392, 2474027822), (136, 3613775579), (1159,
  3827853169), (903, 2738708314), (647, 699489131), (391, 4195621796), (135, 1134451042), (1158,
  4089907213), (902, 727066845), (646, 2566807182), (390, 1201228532), (134, 3607100014), (1157,
  119131257), (901, 2438964722), (645, 3112276976), (389, 2969923429), (133, 15408488), (1156,
  1422835146), (900, 2615768601), (644, 1448640045), (388, 46969566), (132, 4162440927), (1155,
  3307181425), (899, 1611501808), (643, 4238301572), (387, 69929177), (131, 3339793212), (1154,
  2561860669), (898, 2169293992), (642, 268729497), (386, 4089403791), (130, 358378960), (1153,
  2270434296), (897, 4055894692), (641, 2656763001), (385, 1823828407), (129, 108537975), (1152,
  561316028), (896, 1359472037), (640, 2143007618), (384, 3678955372), (128, 3061214447)]

/-- Table entries inserted during quarter 4 of the outer loop
(most recent first). -/
def cryptPairs4 : List (Nat × Nat) := [
  (1279, 1929586796), (1023, 980409708), (767, 1277176698), (511, 4002271268), (255,
  1888263916), (1278, 1276147981), (1022, 1892860191), (766, 2579085800), (510, 1368533378),
  (254, 2183761399), (1277, 3321254821), (1021, 1387312416), (765, 2955696838), (509,
  844687923), (253, 1202694930), (1276, 2953420532), (1020, 45152917), (764, 1030202857), (508,
  165575694), (252, 3424955770), (1275, 1632207004), (1019, 3589743687), (763, 2979947699),
  (507, 567772636), (251, 1872483302), (1274, 4007436626), (1018, 3287176673), (762, 293833941),
  (506, 1004857582), (250, 1190000364), (1273, 3288774359), (1017, 2390594298), (761,
  2816057221), (505, 705201608), (249, 3802989504), (1272, 480224330), (1016, 1039592384), (760,
  4113676497), (504, 81485518), (248, 2940222668), (1271, 814943490), (1015, 1603797616), (759,
  1087459491), (503, 2379453783), (247, 2621371609), (1270, 152640480), (1014, 2375426613),
  (758, 3515064894), (502, 3198643419), (246, 44430653), (1269, 2225193621), (1013, 626605172),
  (757, 2827657402), (501, 1769242008), (245, 2149902055), (1268, 1105100451), (1012,
  3483438114), (756, 105320622), (500, 4180147538), (244, 2012341761), (1267, 2583178756),
  (1011, 2792769420), (755, 492371610), (499, 3217991549), (243, 1251109197), (1266,
  2917285036), (1010, 1703646425), (754, 926589420), (498, 1782702521), (242, 636563794), (1265,
  2551223584), (1009, 2326202554), (753, 54870868), (497, 4070821600), (241, 2285711453), (1264,
  3895922017), (1008, 3638880060), (752, 4241475160), (496, 3771384457), (240, 3716447930),
  (1263, 2419288283), (1007, 414169116), (751, 301910247), (495, 1460743650), (239, 3622946301),
  (1262, 4247888074), (1006, 1785394621), (750, 3417514224), (494, 3828816262), (238, 29087791),
  (1261, 964147635), (1005, 3739889028), (749, 729737001), (493, 3773310612), (237, 2660286881),
  (1260, 2779199458), (1004, 1059706624), (748, 3428742287), (492, 1869681856), (236,
  3633867969), (1259, 1364024630), (1003, 921336537), (747, 2486437875), (491, 125303388), (235,
  1509595561), (1258, 1620563033), (1002, 2027203091), (746, 1230097511), (490, 2489852251),
  (234, 3117332866), (1257, 2389653180), (1001, 1305323446), (745, 1860139031), (489,
  1232439485), (233, 2643871638), (1256, 3288314736), (1000, 2859196621), (744, 959551373),
  (488, 4198882899), (232, 606950555), (1255, 3044011134), (999, 1837551518), (743, 2257542759),
  (487, 888790420), (231, 3033833690), (1254, 771716480), (998, 3995464375), (742, 2316812907),
  (486, 1021754408), (230, 3184307333), (1253, 385737770), (997, 1265773536), (741, 967605815),
  (485, 758212142), (229, 3655229773), (1252, 1572126948), (996, 3435308358), (740, 1151369723),
  (484, 3915510851), (228, 740242880), (1251, 3550324985), (995, 1729011), (739, 1544877507),
  (483, 549781518), (227, 2148873428), (1250, 1662980282), (994, 1797739016), (738, 4132390001),
  (482, 2996691252), (226, 3337516936), (1249, 4201662615), (993, 1444941212), (737,
  4159858280), (481, 31998853), (225, 129812140), (1248, 2763484490), (992, 2476522940), (736,
  410229448), (480, 3794759894), (224, 3731177979), (1247, 3669522052), (991, 3273891174), (735,
  185886885), (479, 202761766), (223, 1698503003), (1246, 3982397833), (990, 1109609202), (734,
  86628941), (478, 1671844517), (222, 3640849888), (1245, 3939477233), (989, 1172709704), (733,
  3716644920), (477, 1228412306), (221, 1767206527), (1244, 2707541063), (988, 1637153399),
  (732, 2521610347), (476, 2098883332), (220, 1008447078), (1243, 2686463894), (987,
  1810477242), (731, 4221032598), (475, 2634613426), (219, 599377548), (1242, 2509331745), (986,
  1897478445), (730, 3948035148), (474, 3716623064), (218, 3041406676), (1241, 3856503341),
  (985, 245200881), (729, 1782264832), (473, 1985048608), (217, 1892028582), (1240, 3673921303),
  (984, 473505039), (728, 270808791), (472, 2191750191), (216, 1203592326), (1239, 237321557),
  (983, 1584143037), (727, 2294422544), (471, 1938254044), (215, 3649998746), (1238,
  1894523697), (982, 834707447), (726, 4003715802), (470, 3064650670), (214, 3249114997), (1237,
  916390110), (981, 1835341035), (725, 1547504064), (469, 840266780), (213, 2673616196), (1236,
  1182799647), (980, 3970753858), (724, 987172923), (468, 2610559397), (212, 3609617118), (1235,
  3767138346), (979, 1736170560), (723, 2109082735), (467, 1827133277), (211, 2994064812),
  (1234, 1359778518), (978, 2880230121), (722, 23484784), (466, 4047555617), (210, 700889839),
  (1233, 3162726726), (977, 3087741609), (721, 2584163675), (465, 125719335), (209, 3514495767),
  (1232, 1408936873), (976, 2411846607), (720, 2536187221), (464, 1048215949), (208,
  2471270064), (1231, 741162130), (975, 1172994177), (719, 872550292), (463, 268445000), (207,
  902185386), (1230, 1901855879), (974, 12125441), (718, 375910478), (462, 3843108506), (206,
  1807522496), (1229, 387576280), (973, 68944269), (717, 1330537396), (461, 313729383), (205,
  3577333629), (1228, 1826214030), (972, 3575429425), (716, 1220664186), (460, 2355290414),
  (204, 3015404796), (1227, 3659979224), (971, 1236794965), (715, 734026944), (459, 76035656),
  (203, 158571789), (1226, 1156316155), (970, 2050512879), (714, 2923566628), (458, 1694650867),
  (202, 3568075396), (1225, 1331587972), (969, 245835660), (713, 1528921880), (457, 2394796601),
  (201, 2188642296), (1224, 3243752647), (968, 2860115867), (712, 2885723794), (456, 753593923),
  (200, 3641200175), (1223, 846198131), (967, 1004967051), (711, 3524979712), (455, 306025064),
  (199, 2850945187), (1222, 2016172047), (966, 1218585019), (710, 396834610), (454, 2858058563),
  (198, 173126713), (1221, 3554789927), (965, 799731873), (709, 1755299894), (453, 126529084),
  (197, 2809491111), (1220, 77086233), (964, 1878108328), (708, 2692307714), (452, 109785537),
  (196, 3606115093), (1219, 642911047), (963, 837881159), (707, 4213350262), (451, 1965809807),
  (195, 3682873180), (1218, 4253162943), (962, 3638135964), (706, 3259161124), (450,
  2874845915), (194, 2348483610), (1217, 28847137), (961, 1739563121), (705, 382235874), (449,
  2155395725), (193, 2199476329), (1216, 2345419414), (960, 2051979283), (704, 109654212), (448,
  3084108270), (192, 2851623780)]

/-- Quarter 1 of the outer loop indices. -/
def outerIdx1 : List Nat := [
  0, 1, 2, 3, 4, 5, 6, 7, 8, 9, 10, 11, 12, 13, 14, 15, 16, 17, 18, 19, 20, 21, 22, 23, 24, 25,
  26, 27, 28, 29, 30, 31, 32, 33, 34, 35, 36, 37, 38, 39, 40, 41, 42, 43, 44, 45, 46, 47, 48,
  49, 50, 51, 52, 53, 54, 55, 56, 57, 58, 59, 60, 61, 62, 63]

/-- Quarter 2 of the outer loop indices. -/
def outerIdx2 : List Nat := [
  64, 65, 66, 67, 68, 69, 70, 71, 72, 73, 74, 75, 76, 77, 78, 79, 80, 81, 82, 83, 84, 85, 86,
  87, 88, 89, 90, 91, 92, 93, 94, 95, 96, 97, 98, 99, 100, 101, 102, 103, 104, 105, 106, 107,
  108, 109, 110, 111, 112, 113, 114, 115, 116, 117, 118, 119, 120, 121, 122, 123, 124, 125, 126,
  127]

/-- Quarter 3 of the outer loop indices. -/
def outerIdx3 : List Nat := [
  128, 129, 130, 131, 132, 133, 134, 135, 136, 137, 138, 139, 140, 141, 142, 143, 144, 145, 146,
  147, 148, 149, 150, 151, 152, 153, 154, 155, 156, 157, 158, 159, 160, 161, 162, 163, 164, 165,
  166, 167, 168, 169, 170, 171, 172, 173, 174, 175, 176, 177, 178, 179, 180, 181, 182, 183, 184,
  185, 186, 187, 188, 189, 190, 191]

/-- Quarter 4 of the outer loop indices. -/
def outerIdx4 : List Nat := [
  192, 193, 194, 195, 196, 197, 198, 199, 200, 201, 202, 203, 204, 205, 206, 207, 208, 209, 210,
  211, 212, 213, 214, 215, 216, 217, 218, 219, 220, 221, 222, 223, 224, 225, 226, 227, 228, 229,
  230, 231, 232, 233, 234, 235, 236, 237, 238, 239, 240, 241, 242, 243, 244, 245, 246, 247, 248,
  249, 250, 251, 252, 253, 254, 255]

/-- The fully evaluated contents of `prepare_encryption_table`, assembled
from the four quarter runs; proved equal to it in
`prepare_encryption_table_eq_lit`, so that later concrete evaluations scan a
shallow literal instead of re-running the fold. -/
def cryptTableLit : List (Nat × Nat) :=
  cryptPairs4 ++ (cryptPairs3 ++ (cryptPairs2 ++ cryptPairs1))


lemma cryptInner_split (s i : Nat) (acc : List (Nat × Nat)) :
    (cryptInner (s, acc) i).1 = (cryptInner (s, []) i).1 ∧
    (cryptInner (s, acc) i).2.1 = (cryptInner (s, []) i).2.1 ∧
    (cryptInner (s, acc) i).2.2 = (cryptInner (s, []) i).2.2 ++ acc :=
  ⟨rfl, rfl, rfl⟩

lemma foldl_cryptOuter_split (l : List Nat) :
    ∀ (seed : Nat) (acc : List (Nat × Nat)),
      (l.foldl cryptOuter (seed, acc)).1 = (l.foldl cryptOuter (seed, [])).1 ∧
      (l.foldl cryptOuter (seed, acc)).2 = (l.foldl cryptOuter (seed, [])).2 ++ acc := by
  induction l with
  | nil => intro seed acc; exact ⟨rfl, by simp⟩
  | cons a l ih =>
    intro seed acc
    rw [List.foldl_cons, List.foldl_cons]
    obtain ⟨h1, h2, h3⟩ := cryptInner_split seed a acc
    have hout : cryptOuter (seed, acc) a =
        ((cryptOuter (seed, []) a).1, (cryptOuter (seed, []) a).2 ++ acc) := by
      unfold cryptOuter
      simp only [h1, h3]
    rw [hout]
    obtain ⟨ga1, ga2⟩ := ih (cryptOuter (seed, []) a).1 ((cryptOuter (seed, []) a).2 ++ acc)
    obtain ⟨gb1, gb2⟩ := ih (cryptOuter (seed, []) a).1 (cryptOuter (seed, []) a).2
    constructor
    · rw [ga1, ← gb1]
    · rw [ga2, gb2, List.append_assoc]

lemma foldl_cryptOuter_state (l : List Nat) (seed s2 : Nat) (p acc : List (Nat × Nat))
    (h : l.foldl cryptOuter (seed, []) = (s2, p)) :
    l.foldl cryptOuter (seed, acc) = (s2, p ++ acc) := by
  obtain ⟨h1, h2⟩ := foldl_cryptOuter_split l seed acc
  rw [h] at h1 h2
  exact Prod.ext h1 h2

lemma cryptChunk1 : outerIdx1.foldl cryptOuter (0x00100001, []) = (24610, cryptPairs1) := by
  decide

lemma cryptChunk2 : outerIdx2.foldl cryptOuter (24610, []) = (1055416, cryptPairs2) := by
  decide

lemma cryptChunk3 : outerIdx3.foldl cryptOuter (1055416, []) = (632989, cryptPairs3) := by
  decide

lemma cryptChunk4 : outerIdx4.foldl cryptOuter (632989, []) = (927852, cryptPairs4) := by
  decide

lemma prepare_encryption_table_eq_lit : prepare_encryption_table = cryptTableLit := by
  have hsplit : List.range 256 = outerIdx1 ++ (outerIdx2 ++ (outerIdx3 ++ outerIdx4)) := by
    decide
  unfold prepare_encryption_table
  rw [hsplit, List.foldl_append, List.foldl_append, List.foldl_append, cryptChunk1,
    foldl_cryptOuter_state outerIdx2 24610 1055416 cryptPairs2 cryptPairs1 cryptChunk2,
    foldl_cryptOuter_state outerIdx3 1055416 632989 cryptPairs3 (cryptPairs2 ++ cryptPairs1)
      cryptChunk3,
    foldl_cryptOuter_state outerIdx4 632989 927852 cryptPairs4
      (cryptPairs3 ++ (cryptPairs2 ++ cryptPairs1)) cryptChunk4]
  rfl

/-! ### Concrete hash values used by the witness archives -/

lemma hashA_fileTxt :
    mpq_string_hash prepare_encryption_table fileTxt .HashA = some 3645141129 := by
  rw [prepare_encryption_table_eq_lit]
  decide

lemma hashB_fileTxt :
    mpq_string_hash prepare_encryption_table fileTxt .HashB = some 1604733482 := by
  rw [prepare_encryption_table_eq_lit]
  decide

lemma hashTO_fileTxt :
    mpq_string_hash prepare_encryption_table fileTxt .TableOffset = some 1051299194 := by
  rw [prepare_encryption_table_eq_lit]
  decide

lemma hashA_listfile :
    mpq_string_hash prepare_encryption_table listfileName .HashA = some 4251285776 := by
  rw [prepare_encryption_table_eq_lit]
  decide

lemma hashB_listfile :
    mpq_string_hash prepare_encryption_table listfileName .HashB = some 1318820007 := by
  rw [prepare_encryption_table_eq_lit]
  decide

lemma hashA_nameA :
    mpq_string_hash prepare_encryption_table nameA .HashA = some 2343791050 := by
  rw [prepare_encryption_table_eq_lit]
  decide

lemma hashB_nameA :
    mpq_string_hash prepare_encryption_table nameA .HashB = some 496225328 := by
  rw [prepare_encryption_table_eq_lit]
  decide

/-! ### Lookup and reader runs on the witness archives -/

lemma get_entry_mpqC1 : get_hash_table_entry mpqC1 fileTxt = some (some entryC1) := by
  unfold get_hash_table_entry
  rw [show mpqC1.encryption_table = prepare_encryption_table from rfl,
    hashA_fileTxt, hashB_fileTxt]
  decide

lemma get_entry_mpqC6 : get_hash_table_entry mpqC6 fileTxt = some (some entryC6) := by
  unfold get_hash_table_entry
  rw [show mpqC6.encryption_table = prepare_encryption_table from rfl,
    hashA_fileTxt, hashB_fileTxt]
  decide

lemma get_entry_mpqC7 : get_hash_table_entry mpqC7 fileTxt = some (some entryC7) := by
  unfold get_hash_table_entry
  rw [show mpqC7.encryption_table = prepare_encryption_table from rfl,
    hashA_fileTxt, hashB_fileTxt]
  decide

lemma get_entry_mpqC9_listfile :
    get_hash_table_entry mpqC9 listfileName = some (some entryListfileC9) := by
  unfold get_hash_table_entry
  rw [show mpqC9.encryption_table = prepare_encryption_table from rfl,
    hashA_listfile, hashB_listfile]
  decide

lemma get_entry_mpqC9_nameA :
    get_hash_table_entry mpqC9 nameA = some (some entryAC9) := by
  unfold get_hash_table_entry
  rw [show mpqC9.encryption_table = prepare_encryption_table from rfl,
    hashA_nameA, hashB_nameA]
  decide

lemma get_entry_mpqC2 : get_hash_table_entry mpqC2 nameA = some none := by
  unfold get_hash_table_entry
  rw [show mpqC2.encryption_table = prepare_encryption_table from rfl,
    hashA_nameA, hashB_nameA]
  decide

lemma read_mpqC1 :
    read_mpq_file_sector zlibNone bzipNone mpqC1 fileTxt false inputC1 = .ok [] := by
  unfold read_mpq_file_sector
  rw [get_entry_mpqC1]
  decide

lemma read_spec_mpqC1 :
    read_mpq_file_sector_spec zlibNone bzipNone mpqC1 fileTxt false inputC1 =
      .ok [9, 9, 9, 9] := by
  unfold read_mpq_file_sector_spec
  rw [get_entry_mpqC1]
  decide

lemma read_mpqC7 :
    read_mpq_file_sector zlibNone bzipNone mpqC7 fileTxt false inputC7 = .panicked := by
  unfold read_mpq_file_sector
  rw [get_entry_mpqC7]
  decide

lemma read_mpqC9_nameA :
    read_mpq_file_sector zlibNone bzipNone mpqC9 nameA false inputC9 = .panicked := by
  unfold read_mpq_file_sector
  rw [get_entry_mpqC9_nameA]
  decide

lemma read_mpqC9_listfile :
    read_mpq_file_sector zlibNone bzipNone mpqC9 listfileName false inputC9 =
      .ok [97, 10] := by
  unfold read_mpq_file_sector
  rw [get_entry_mpqC9_listfile]
  decide

lemma get_files_mpqC9 : get_files zlibNone bzipNone mpqC9 inputC9 = none := by
  unfold get_files
  rw [read_mpqC9_listfile]
  show collectFiles mpqC9 (rustLines [97, 10]) = none
  rw [show rustLines [97, 10] = [nameA] from rfl]
  unfold collectFiles
  rw [get_entry_mpqC9_nameA]
  decide

/-! ### Claim theorems -/

/-- C1: failing input for the multi-sector claim.  `blockC1` has EXISTS set,
ENCRYPTED clear, `archived_size > 0` and SINGLE_UNIT clear, yet
`read_mpq_file_sector` returns empty content: the source nests the
multi-sector loop inside the `SINGLE_UNIT != 0` branch (its own comment
there says the file "consists of many sectors"), so a block without
SINGLE_UNIT falls through to the final `Ok` with the empty accumulator.
The spec-side reader `read_mpq_file_sector_spec`, which branches to the
multi-sector path exactly when SINGLE_UNIT is clear as §4.6 states, returns
the sector bytes instead. -/
theorem read_single_unit_clear_returns_empty :
    blockC1.flags &&& MPQ_FILE_EXISTS ≠ 0 ∧
    blockC1.flags &&& MPQ_FILE_SINGLE_UNIT = 0 ∧
    blockC1.flags &&& MPQ_FILE_ENCRYPTED = 0 ∧
    0 < blockC1.archived_size ∧
    get_hash_table_entry mpqC1 fileTxt = some (some entryC1) ∧
    mpqC1.block_table_entries.get? entryC1.block_table_index = some blockC1 ∧
    read_mpq_file_sector zlibNone bzipNone mpqC1 fileTxt false inputC1 = .ok [] ∧
    read_mpq_file_sector_spec zlibNone bzipNone mpqC1 fileTxt false inputC1 =
      .ok [9, 9, 9, 9] :=
  ⟨by decide, by decide, by decide, by decide, get_entry_mpqC1, by decide,
    read_mpqC1, read_spec_mpqC1⟩

/-- C2: the reader returns a successful empty byte sequence whenever the
filename has no matching hash entry, or the resolved block entry has EXISTS
clear, or its archived size is zero. -/
theorem read_missing_or_empty_returns_empty :
    ∀ (zlibD bzipD : List Nat → Option (List Nat)) (m : MPQ) (f : List Nat)
      (fd : Bool) (input : List Nat),
    (get_hash_table_entry m f = some none →
      read_mpq_file_sector zlibD bzipD m f fd input = .ok []) ∧
    (∀ (h : MPQHashTableEntry) (b : MPQBlockTableEntry),
      get_hash_table_entry m f = some (some h) →
      m.block_table_entries.get? h.block_table_index = some b →
      (b.flags &&& MPQ_FILE_EXISTS = 0 ∨ b.archived_size = 0) →
      read_mpq_file_sector zlibD bzipD m f fd input = .ok []) := by
  intro zl bz m f fd input
  constructor
  · intro h
    unfold read_mpq_file_sector
    rw [h]
  · intro he b hh hb hcase
    unfold read_mpq_file_sector
    simp only [hh, hb]
    rcases hcase with hc | hc
    · simp [hc]
    · simp [hc]

/-- Witness for C2: a concrete archive with an empty hash table yields a
successful empty result for a missing filename. -/
theorem read_missing_or_empty_returns_empty_witness :
    read_mpq_file_sector zlibNone bzipNone mpqC2 nameA false [] = .ok [] :=
  (read_missing_or_empty_returns_empty zlibNone bzipNone mpqC2 nameA false []).1
    get_entry_mpqC2

/-- C4 counterexample: three of the claimed hex spot values disagree with the
table the code builds (whose values match the decimal
parentheticals): `table[51]`, `table[317]` and `table[1279]` are
3348854420 = 0xC79B7694, 809762 = 0x000C5B22 and 1929586796 = 0x7303286C,
not 0xC798E394, 0x000C5A62 and 0x7301876C. -/
theorem encryption_table_spot_values_counterexample :
    hmGet prepare_encryption_table 51 = some 3348854420 ∧
      (3348854420 : Nat) ≠ 0xC798E394 ∧
    hmGet prepare_encryption_table 317 = some 809762 ∧
      (809762 : Nat) ≠ 0x000C5A62 ∧
    hmGet prepare_encryption_table 1279 = some 1929586796 ∧
      (1929586796 : Nat) ≠ 0x7301876C := by
  refine ⟨?_, by norm_num, ?_, by norm_num, ?_, by norm_num⟩ <;>
    (rw [prepare_encryption_table_eq_lit]; decide)

/-- C4 (amended): the table built by `prepare_encryption_table` has exactly
1280 entries, populated at the indices `0..=1279` and nowhere else, with
spot values `table[0] = 0x55C636E2`, `table[51] = 0xC79B7694`,
`table[317] = 0x000C5B22` and `table[1279] = 0x7303286C`. -/
theorem encryption_table_shape_and_spots (k j : Nat) (hk : k < 1280)
    (hj : 1280 ≤ j) :
    prepare_encryption_table.length = 1280 ∧
    (hmGet prepare_encryption_table k).isSome ∧
    hmGet prepare_encryption_table j = none ∧
    hmGet prepare_encryption_table 0 = some 0x55C636E2 ∧
    hmGet prepare_encryption_table 51 = some 0xC79B7694 ∧
    hmGet prepare_encryption_table 317 = some 0x000C5B22 ∧
    hmGet prepare_encryption_table 1279 = some 0x7303286C := by
  refine ⟨prepare_encryption_table_length, hmGet_isSome_of_lt hk,
    hmGet_none_of_ge hj, ?_, ?_, ?_, ?_⟩ <;>
    (rw [prepare_encryption_table_eq_lit]; decide)

/-- Witness for the amended C4 at concrete in-range and out-of-range
indices. -/
theorem encryption_table_shape_and_spots_witness :
    (hmGet prepare_encryption_table 617).isSome ∧
    hmGet prepare_encryption_table 2024 = none := by
  obtain ⟨_, hsome, hnone, _, _, _, _⟩ :=
    encryption_table_shape_and_spots 617 2024 (by norm_num) (by norm_num)
  exact ⟨hsome, hnone⟩

/-- C5: the two internal cipher keys are reproduced exactly:
`hash("(hash table)", Table) = 0xC3AF3770` and
`hash("(block table)", Table) = 0xEC83B3A3`. -/
theorem internal_table_key_hashes :
    mpq_string_hash prepare_encryption_table (cpOf "(hash table)") .Table =
      some 0xC3AF3770 ∧
    mpq_string_hash prepare_encryption_table (cpOf "(block table)") .Table =
      some 0xEC83B3A3 := by
  constructor <;> (rw [prepare_encryption_table_eq_lit]; decide)

/-- Helper: once both hashes resolve, the lookup is a linear `find?` over
all entries. -/
lemma get_hash_table_entry_eq (m : MPQ) (f : List Nat) (hA hB : Nat)
    (ha : mpq_string_hash m.encryption_table f .HashA = some hA)
    (hb : mpq_string_hash m.encryption_table f .HashB = some hB) :
    get_hash_table_entry m f =
      some (m.hash_table_entries.find? (fun e => e.hash_a == hA && e.hash_b == hB)) := by
  unfold get_hash_table_entry
  rw [ha, hb]

/-- C6 counterexample: in `mpqC6` the home slot of `file.txt` (its
TableOffset hash is even, so slot 0 of the 2-entry table) holds a never-used
sentinel with `block_index = 0xFFFFFFFF`, and the matching entry sits beyond
it; the claim says the lookup terminates unsuccessfully at the sentinel, but
the code returns the matching entry. -/
theorem hash_lookup_sentinel_counterexample :
    sentinelC6.block_table_index = 0xFFFFFFFF ∧
    mpqC6.hash_table_entries = [sentinelC6, entryC6] ∧
    mpqC6.archive_header.hash_table_entries = 2 ∧
    mpq_string_hash mpqC6.encryption_table fileTxt .TableOffset =
      some 1051299194 ∧
    1051299194 % 2 = 0 ∧
    entryC6 ≠ sentinelC6 ∧
    get_hash_table_entry mpqC6 fileTxt = some (some entryC6) := by
  refine ⟨rfl, rfl, rfl, ?_, by norm_num, by decide, get_entry_mpqC6⟩
  rw [show mpqC6.encryption_table = prepare_encryption_table from rfl]
  exact hashTO_fileTxt

/-- C6 (amended): the lookup is a linear scan from index 0 over all hash
table entries returning the first whose `hash_a` and `hash_b` both match;
it does not start at the home slot and no sentinel terminates it: a `some`
result is a matching stored entry, and a `none` result means no entry at
all matches. -/
theorem hash_lookup_linear_scan (m : MPQ) (f : List Nat) (hA hB : Nat)
    (ha : mpq_string_hash m.encryption_table f .HashA = some hA)
    (hb : mpq_string_hash m.encryption_table f .HashB = some hB) :
    (∀ e, get_hash_table_entry m f = some (some e) →
      e ∈ m.hash_table_entries ∧ e.hash_a = hA ∧ e.hash_b = hB) ∧
    (get_hash_table_entry m f = some none →
      ∀ e ∈ m.hash_table_entries, ¬(e.hash_a = hA ∧ e.hash_b = hB)) := by
  have hfull := get_hash_table_entry_eq m f hA hB ha hb
  constructor
  · intro e he
    rw [hfull] at he
    have hf : m.hash_table_entries.find?
        (fun x => x.hash_a == hA && x.hash_b == hB) = some e := by
      injection he
    have hmem := List.mem_of_find?_eq_some hf
    have hp := List.find?_some hf
    simp only [Bool.and_eq_true, beq_iff_eq] at hp
    exact ⟨hmem, hp.1, hp.2⟩
  · intro he e hmem
    rw [hfull] at he
    have hf : m.hash_table_entries.find?
        (fun x => x.hash_a == hA && x.hash_b == hB) = none := by
      injection he
    have := List.find?_eq_none.mp hf e hmem
    simp only [Bool.and_eq_true, beq_iff_eq, not_and] at this
    intro hcon
    exact this hcon.1 hcon.2

/-- Witness for the amended C6 on the concrete two-slot archive: the entry
returned past the sentinel matches both hashes and is stored. -/
theorem hash_lookup_linear_scan_witness :
    entryC6 ∈ mpqC6.hash_table_entries ∧
    entryC6.hash_a = 3645141129 ∧ entryC6.hash_b = 1604733482 := by
  have hta : mpq_string_hash mpqC6.encryption_table fileTxt .HashA =
      some 3645141129 := by
    rw [show mpqC6.encryption_table = prepare_encryption_table from rfl]
    exact hashA_fileTxt
  have htb : mpq_string_hash mpqC6.encryption_table fileTxt .HashB =
      some 1604733482 := by
    rw [show mpqC6.encryption_table = prepare_encryption_table from rfl]
    exact hashB_fileTxt
  exact (hash_lookup_linear_scan mpqC6 fileTxt 3645141129 1604733482 hta htb).1
    entryC6 get_entry_mpqC6

/-- C7 counterexample: an unsupported compression tag (0x08, IMPLODE) makes
`decompress` panic rather than return a recoverable error, and a block with
ENCRYPTED set makes the sector reader panic. -/
theorem unsupported_compression_counterexample :
    decompress zlibNone bzipNone [0x08, 1, 2, 3] = .panicked ∧
    (RRes.panicked : RRes (List Nat × List Nat)) ≠ RRes.nomErr ∧
    blockC7.flags &&& MPQ_FILE_ENCRYPTED ≠ 0 ∧
    read_mpq_file_sector zlibNone bzipNone mpqC7 fileTxt false inputC7 =
      .panicked :=
  ⟨by decide, by decide, by decide, read_mpqC7⟩

/-- C7 (amended): a compression-method byte other than 0x00, 0x02 or 0x10
makes `decompress` panic (the process diverges; no error value is
returned), and a resolvable block with the ENCRYPTED flag set makes
`read_mpq_file_sector` panic. -/
theorem unsupported_compression_and_encrypted_panic :
    (∀ (zlibD bzipD : List Nat → Option (List Nat)) (t : Nat) (rest : List Nat),
      t ≠ COMPRESSION_PLAINTEXT → t ≠ COMPRESSION_ZLIB → t ≠ COMPRESSION_BZ2 →
      decompress zlibD bzipD (t :: rest) = .panicked) ∧
    (∀ (zlibD bzipD : List Nat → Option (List Nat)) (m : MPQ) (f : List Nat)
      (fd : Bool) (input : List Nat) (h : MPQHashTableEntry)
      (b : MPQBlockTableEntry),
      get_hash_table_entry m f = some (some h) →
      m.block_table_entries.get? h.block_table_index = some b →
      b.flags &&& MPQ_FILE_EXISTS ≠ 0 → b.archived_size ≠ 0 →
      b.offset + m.archive_header.offset ≤ input.length →
      b.archived_size ≤ (input.drop (b.offset + m.archive_header.offset)).length →
      b.flags &&& MPQ_FILE_ENCRYPTED ≠ 0 →
      read_mpq_file_sector zlibD bzipD m f fd input = .panicked) := by
  constructor
  · intro zl bz t rest h0 h2 h16
    simp [decompress, h0, h2, h16]
  · intro zl bz m f fd input he b hh hb hex har hoff hlen henc
    have h1 : ¬ input.length < b.offset + m.archive_header.offset := by omega
    have h2 : ¬ (input.drop (b.offset + m.archive_header.offset)).length <
        b.archived_size := by omega
    unfold read_mpq_file_sector
    simp only [hh, hb]
    simp [hex, har, h1, h2, henc]
    simp only [List.length_drop] at hlen
    omega

/-- Witness for the amended C7 at a concrete tag and the concrete encrypted
archive. -/
theorem unsupported_compression_and_encrypted_panic_witness :
    decompress zlibNone bzipNone [0x20, 7] = .panicked ∧
    read_mpq_file_sector zlibNone bzipNone mpqC7 fileTxt false inputC7 =
      .panicked := by
  constructor
  · exact unsupported_compression_and_encrypted_panic.1 zlibNone bzipNone 0x20 [7]
      (by norm_num [COMPRESSION_PLAINTEXT]) (by norm_num [COMPRESSION_ZLIB])
      (by norm_num [COMPRESSION_BZ2])
  · exact unsupported_compression_and_encrypted_panic.2 zlibNone bzipNone mpqC7
      fileTxt false inputC7 entryC7 blockC7 get_entry_mpqC7 (by decide) (by decide)
      (by decide) (by decide) (by decide) (by decide)

/-- C9: in `mpqC9` the filename `a` resolves to a hash entry whose block
index is the deleted-tombstone value 0xFFFFFFFE (the linear scan does not
skip it), which is out of range for the one-entry block table; both
`read_mpq_file_sector` and `get_files` index the block table without a
bounds check and panic. -/
theorem unchecked_block_index_panics :
    entryAC9.block_table_index = 0xFFFFFFFE ∧
    get_hash_table_entry mpqC9 nameA = some (some entryAC9) ∧
    mpqC9.block_table_entries.length = 1 ∧
    read_mpq_file_sector zlibNone bzipNone mpqC9 nameA false inputC9 =
      .panicked ∧
    get_files zlibNone bzipNone mpqC9 inputC9 = none :=
  ⟨rfl, get_entry_mpqC9_nameA, rfl, read_mpqC9_nameA, get_files_mpqC9⟩

/-- C3 counterexample: the loop bound of the decryptor is the `f32`
rounding of `data.len()`, divided by four, not the exact
`floor(len / 4)`.  At length `2 ^ 25 + 3` the cast rounds the length UP,
the loop runs one extra iteration, and the 4-byte slice of that iteration
is out of range: the call panics (modelled as `none`) on a buffer the
claim says is decrypted successfully. -/
theorem decrypt_f32_word_count_counterexample :
    mpq_data_decrypt prepare_encryption_table (List.replicate (2 ^ 25 + 3) 0) 0 =
      none := by
  unfold mpq_data_decrypt
  rw [List.length_replicate,
    show decryptWords (2 ^ 25 + 3) = 2 ^ 23 + 1 from by decide,
    List.range_succ, decryptLoop_append]
  obtain ⟨st2, hloop, _⟩ := decryptLoop_some_length (List.replicate (2 ^ 25 + 3) 0)
    (List.range (2 ^ 23))
    (fun i hi => by
      have := List.mem_range.mp hi
      rw [List.length_replicate]
      omega)
    (0, 0xEEEEEEEE, [])
  rw [hloop, decryptLoop_cons,
    show ((some st2).bind fun s =>
        decryptStep prepare_encryption_table (List.replicate (2 ^ 25 + 3) 0) s (2 ^ 23)) =
      decryptStep prepare_encryption_table (List.replicate (2 ^ 25 + 3) 0) st2 (2 ^ 23)
      from rfl,
    decryptStep_oob _ st2 _ (by rw [List.length_replicate]; norm_num)]
  rfl

/-- Witness for the amended C3 at a concrete six-byte buffer: decryption
succeeds, emits four bytes, and ignores the two trailing bytes. -/
theorem mpq_data_decrypt_word_exact_witness :
    ([1, 2, 3, 4, 5, 6] : List Nat).length ≤ 2 ^ 24 ∧
    ((mpq_data_decrypt prepare_encryption_table [1, 2, 3, 4, 5, 6] 0).map List.length =
        some (4 * (([1, 2, 3, 4, 5, 6] : List Nat).length / 4)) ∧
      mpq_data_decrypt prepare_encryption_table [1, 2, 3, 4, 5, 6] 0 =
        mpq_data_decrypt prepare_encryption_table
          (([1, 2, 3, 4, 5, 6] : List Nat).take
            (4 * (([1, 2, 3, 4, 5, 6] : List Nat).length / 4))) 0) :=
  ⟨by decide, mpq_data_decrypt_word_exact [1, 2, 3, 4, 5, 6] 0 (by decide)⟩

/-- C8 counterexample: case-insensitivity of the string hash fails off
ASCII.  For the single codepoint U+0130 (LATIN CAPITAL LETTER I WITH DOT
ABOVE), lowercasing yields U+0069 U+0307, uppercasing inside the hash
turns that into U+0049 U+0307, and the combining dot U+0307 drives the
table index to 0x200 + 0x307 = 1287, past the 1280 table entries: the
lowercased side panics (modelled as `none`) while the uppercased side
returns a hash value. -/
theorem mpq_string_hash_unicode_counterexample :
    mpq_string_hash prepare_encryption_table (toLowercaseCp [0x130])
        MPQHashType.HashB = none ∧
    (mpq_string_hash prepare_encryption_table (toUppercaseCp [0x130])
        MPQHashType.HashB).isSome := by
  rw [prepare_encryption_table_eq_lit]
  exact ⟨by decide, by decide⟩

/-- Witness for the amended C8 at the concrete ASCII string `file`. -/
theorem mpq_string_hash_case_insensitive_witness :
    ([102, 105, 108, 101].all fun c => decide (c < 128)) = true ∧
    mpq_string_hash prepare_encryption_table (toLowercaseCp [102, 105, 108, 101])
        MPQHashType.HashA =
      mpq_string_hash prepare_encryption_table (toUppercaseCp [102, 105, 108, 101])
        MPQHashType.HashA :=
  ⟨by decide, mpq_string_hash_case_insensitive prepare_encryption_table
    [102, 105, 108, 101] MPQHashType.HashA (by decide)⟩

end NomMpq
